import Mathlib

/-!
# Skydive topology graph: dual-mode backend, sync message codec, history

A shallow embedding of `topology/graph/cachedbackend.go` and
`topology/graph/message.go`, and of the historized store as
`topology/graph/orientdb_test.go` drives it through the graph facade.

* Go pointers (`*Node`, `*Edge`, `*Graph`) and `interface{}` values are
  members of abstract carrier types collected in `Types`; passing "the same
  argument" means passing the same member.
* A Go slice is either `nil` or a (possibly empty) sequence: `Slice`.
* A backend is a record of methods over an explicit backend state
  (`GraphBackend`), bundled with its current state (`Instance`).
* `CachedBackend` carries, besides the three fields of the Go struct, a
  ghost history `calls` of the backend methods invoked so far.
-/

namespace Skydive

/-! ## Value types -/

/-- Go slice value: the nil slice, or a slice holding the given elements. -/
inductive Slice (α : Type) where
  | nil : Slice α
  | ofList (elems : List α) : Slice α
deriving Repr, DecidableEq

/-- Elements of a slice (`nil` has none). -/
def Slice.toList {α : Type} : Slice α → List α
  | Slice.nil => []
  | Slice.ofList l => l

/-- Go `len(s)`. -/
def Slice.len {α : Type} (s : Slice α) : Nat := s.toList.length

/-- Go `s == nil`. -/
def Slice.isNil {α : Type} : Slice α → Bool
  | Slice.nil => true
  | Slice.ofList _ => false

/-- Record `common.TimeSlice`, built by `common.NewTimeSlice(s, l)`. -/
structure TimeSlice where
  Start : Int
  Last : Int
deriving Repr, DecidableEq

/-- Go `common.NewTimeSlice(s, l)`. -/
def NewTimeSlice (s l : Int) : TimeSlice := { Start := s, Last := l }

/-- Go `type Identifier string`. -/
abbrev Identifier := String

/-- Carrier types for the pointer and interface values the backends
exchange.  `Node`, `Edge`, `Graph` stand for values of `*Node`, `*Edge`,
`*Graph`; `Any` for `interface{}`; `Error` for non-nil `error` values. -/
structure Types where
  Node : Type
  Edge : Type
  Metadata : Type
  Any : Type
  Graph : Type
  GraphContext : Type
  Error : Type

/-! ## The backend interface -/

/-- Interface `GraphBackend`, as a record of state-passing methods over the
backend state `σ`.  The method set is the one `CachedBackend` forwards to. -/
structure GraphBackend (T : Types) (σ : Type) where
  NodeAdded : T.Node → σ → Bool × σ
  NodeDeleted : T.Node → σ → Bool × σ
  GetNode : Identifier → Option TimeSlice → σ → Slice T.Node × σ
  GetNodeEdges : T.Node → Option TimeSlice → T.Metadata → σ → Slice T.Edge × σ
  EdgeAdded : T.Edge → σ → Bool × σ
  EdgeDeleted : T.Edge → σ → Bool × σ
  GetEdge : Identifier → Option TimeSlice → σ → Slice T.Edge × σ
  GetEdgeNodes : T.Edge → Option TimeSlice → T.Metadata → T.Metadata → σ →
    (Slice T.Node × Slice T.Node) × σ
  MetadataUpdated : T.Any → σ → Bool × σ
  GetNodes : Option TimeSlice → T.Metadata → σ → Slice T.Node × σ
  GetEdges : Option TimeSlice → T.Metadata → σ → Slice T.Edge × σ
  WithContext : T.Graph → T.GraphContext → σ → (T.Graph × Option T.Error) × σ

/-- A backend object: its methods together with its current state. -/
structure Instance (T : Types) (σ : Type) where
  impl : GraphBackend T σ
  state : σ

/-- Which of the two backends of a `CachedBackend` a call went to. -/
inductive Target where
  | memory
  | persistent
deriving Repr, DecidableEq

/-- A backend method together with the arguments it was called with. -/
inductive Call (T : Types) where
  | NodeAdded (n : T.Node)
  | NodeDeleted (n : T.Node)
  | GetNode (i : Identifier) (t : Option TimeSlice)
  | GetNodeEdges (n : T.Node) (t : Option TimeSlice) (m : T.Metadata)
  | EdgeAdded (e : T.Edge)
  | EdgeDeleted (e : T.Edge)
  | GetEdge (i : Identifier) (t : Option TimeSlice)
  | GetEdgeNodes (e : T.Edge) (t : Option TimeSlice) (parentMetadata childMetadata : T.Metadata)
  | MetadataUpdated (i : T.Any)
  | GetNodes (t : Option TimeSlice) (m : T.Metadata)
  | GetEdges (t : Option TimeSlice) (m : T.Metadata)
  | WithContext (graph : T.Graph) (context : T.GraphContext)

/-- One entry of the invocation history. -/
abbrev Invocation (T : Types) := Target × Call T

/-! ## `CachedBackend` -/

/-- Go constant `CACHE_ONLY_MODE` (`iota` = 0). -/
def CACHE_ONLY_MODE : Int := 0

/-- Go constant `PERSISTENT_ONLY_MODE` (1). -/
def PERSISTENT_ONLY_MODE : Int := 1

/-- Go constant `DEFAULT_MODE` (2). -/
def DEFAULT_MODE : Int := 2

/-- Struct `CachedBackend`.  `cacheMode` is the content of the
`atomic.Value`: `none` while nothing was stored (`Load` returns a nil
interface), `some m` after `Store(m)` with `m` an `int`.  `calls` is the
ghost history of backend invocations, oldest first. -/
structure CachedBackend (T : Types) (M P : Type) where
  memory : Instance T M
  persistent : Instance T P
  cacheMode : Option Int
  calls : List (Invocation T)

namespace CachedBackend

variable {T : Types} {M P : Type} {α : Type}

/-- Invoke a method of `c.memory`: run it on the memory state, keep the new
state and record the call. -/
def onMemory (c : CachedBackend T M P) (call : Call T) (f : GraphBackend T M → M → α × M) :
    α × CachedBackend T M P :=
  let out := f c.memory.impl c.memory.state
  (out.1, { c with memory := { c.memory with state := out.2 },
                   calls := c.calls ++ [(Target.memory, call)] })

/-- Invoke a method of `c.persistent`: run it on the persistent state, keep
the new state and record the call. -/
def onPersistent (c : CachedBackend T M P) (call : Call T) (f : GraphBackend T P → P → α × P) :
    α × CachedBackend T M P :=
  let out := f c.persistent.impl c.persistent.state
  (out.1, { c with persistent := { c.persistent with state := out.2 },
                   calls := c.calls ++ [(Target.persistent, call)] })

/-- The same `CachedBackend` with another memory backend plugged in. -/
def withMemory {M2 : Type} (c : CachedBackend T M P) (memory2 : Instance T M2) :
    CachedBackend T M2 P :=
  { memory := memory2, persistent := c.persistent, cacheMode := c.cacheMode, calls := c.calls }

/-- The same `CachedBackend` with another persistent backend plugged in. -/
def withPersistent {P2 : Type} (c : CachedBackend T M P) (persistent2 : Instance T P2) :
    CachedBackend T M P2 :=
  { memory := c.memory, persistent := persistent2, cacheMode := c.cacheMode, calls := c.calls }

/-- Go `SetMode`: `c.cacheMode.Store(mode)`. -/
def SetMode (c : CachedBackend T M P) (mode : Int) : CachedBackend T M P :=
  { c with cacheMode := some mode }

/-- Go `CachedBackend.NodeAdded`. -/
def NodeAdded (c : CachedBackend T M P) (n : T.Node) : Bool × CachedBackend T M P :=
  let mode := c.cacheMode
  let s0 : Bool × CachedBackend T M P := (false, c)
  let s1 := if mode ≠ some PERSISTENT_ONLY_MODE then
      s0.2.onMemory (Call.NodeAdded n) (fun b => b.NodeAdded n)
    else s0
  let s2 := if mode ≠ some CACHE_ONLY_MODE then
      s1.2.onPersistent (Call.NodeAdded n) (fun b => b.NodeAdded n)
    else s1
  s2

/-- Go `CachedBackend.NodeDeleted`. -/
def NodeDeleted (c : CachedBackend T M P) (n : T.Node) : Bool × CachedBackend T M P :=
  let mode := c.cacheMode
  let s0 : Bool × CachedBackend T M P := (false, c)
  let s1 := if mode ≠ some PERSISTENT_ONLY_MODE then
      s0.2.onMemory (Call.NodeDeleted n) (fun b => b.NodeDeleted n)
    else s0
  let s2 := if mode ≠ some CACHE_ONLY_MODE then
      s1.2.onPersistent (Call.NodeDeleted n) (fun b => b.NodeDeleted n)
    else s1
  s2

/-- Go `CachedBackend.GetNode`. -/
def GetNode (c : CachedBackend T M P) (i : Identifier) (t : Option TimeSlice) :
    Slice T.Node × CachedBackend T M P :=
  let mode := c.cacheMode
  if t = none ∧ mode ≠ some PERSISTENT_ONLY_MODE then
    c.onMemory (Call.GetNode i t) (fun b => b.GetNode i t)
  else if mode ≠ some CACHE_ONLY_MODE then
    c.onPersistent (Call.GetNode i t) (fun b => b.GetNode i t)
  else
    (Slice.nil, c)

/-- Go `CachedBackend.GetNodeEdges`; the named result `edges` is returned
with its zero value (the nil slice) when no backend is consulted. -/
def GetNodeEdges (c : CachedBackend T M P) (n : T.Node) (t : Option TimeSlice) (m : T.Metadata) :
    Slice T.Edge × CachedBackend T M P :=
  let mode := c.cacheMode
  let edges : Slice T.Edge := Slice.nil
  if t = none ∧ mode ≠ some PERSISTENT_ONLY_MODE then
    c.onMemory (Call.GetNodeEdges n t m) (fun b => b.GetNodeEdges n t m)
  else if mode ≠ some CACHE_ONLY_MODE then
    c.onPersistent (Call.GetNodeEdges n t m) (fun b => b.GetNodeEdges n t m)
  else
    (edges, c)

/-- Go `CachedBackend.EdgeAdded`. -/
def EdgeAdded (c : CachedBackend T M P) (e : T.Edge) : Bool × CachedBackend T M P :=
  let mode := c.cacheMode
  let s0 : Bool × CachedBackend T M P := (false, c)
  let s1 := if mode ≠ some PERSISTENT_ONLY_MODE then
      s0.2.onMemory (Call.EdgeAdded e) (fun b => b.EdgeAdded e)
    else s0
  let s2 := if mode ≠ some CACHE_ONLY_MODE then
      s1.2.onPersistent (Call.EdgeAdded e) (fun b => b.EdgeAdded e)
    else s1
  s2

/-- Go `CachedBackend.EdgeDeleted`. -/
def EdgeDeleted (c : CachedBackend T M P) (e : T.Edge) : Bool × CachedBackend T M P :=
  let mode := c.cacheMode
  let s0 : Bool × CachedBackend T M P := (false, c)
  let s1 := if mode ≠ some PERSISTENT_ONLY_MODE then
      s0.2.onMemory (Call.EdgeDeleted e) (fun b => b.EdgeDeleted e)
    else s0
  let s2 := if mode ≠ some CACHE_ONLY_MODE then
      s1.2.onPersistent (Call.EdgeDeleted e) (fun b => b.EdgeDeleted e)
    else s1
  s2

/-- Go `CachedBackend.GetEdge`. -/
def GetEdge (c : CachedBackend T M P) (i : Identifier) (t : Option TimeSlice) :
    Slice T.Edge × CachedBackend T M P :=
  let mode := c.cacheMode
  if t = none ∧ mode ≠ some PERSISTENT_ONLY_MODE then
    c.onMemory (Call.GetEdge i t) (fun b => b.GetEdge i t)
  else if mode ≠ some CACHE_ONLY_MODE then
    c.onPersistent (Call.GetEdge i t) (fun b => b.GetEdge i t)
  else
    (Slice.nil, c)

/-- Go `CachedBackend.GetEdgeNodes`. -/
def GetEdgeNodes (c : CachedBackend T M P) (e : T.Edge) (t : Option TimeSlice)
    (parentMetadata childMetadata : T.Metadata) :
    (Slice T.Node × Slice T.Node) × CachedBackend T M P :=
  let mode := c.cacheMode
  if t = none ∧ mode ≠ some PERSISTENT_ONLY_MODE then
    c.onMemory (Call.GetEdgeNodes e t parentMetadata childMetadata)
      (fun b => b.GetEdgeNodes e t parentMetadata childMetadata)
  else if mode ≠ some CACHE_ONLY_MODE then
    c.onPersistent (Call.GetEdgeNodes e t parentMetadata childMetadata)
      (fun b => b.GetEdgeNodes e t parentMetadata childMetadata)
  else
    ((Slice.nil, Slice.nil), c)

/-- Go `CachedBackend.MetadataUpdated`. -/
def MetadataUpdated (c : CachedBackend T M P) (i : T.Any) : Bool × CachedBackend T M P :=
  let mode := c.cacheMode
  let s0 : Bool × CachedBackend T M P := (false, c)
  let s1 := if mode ≠ some CACHE_ONLY_MODE then
      s0.2.onPersistent (Call.MetadataUpdated i) (fun b => b.MetadataUpdated i)
    else s0
  let s2 := if mode ≠ some PERSISTENT_ONLY_MODE then
      s1.2.onMemory (Call.MetadataUpdated i) (fun b => b.MetadataUpdated i)
    else s1
  s2

/-- Go `CachedBackend.GetNodes`. -/
def GetNodes (c : CachedBackend T M P) (t : Option TimeSlice) (m : T.Metadata) :
    Slice T.Node × CachedBackend T M P :=
  let mode := c.cacheMode
  if t = none ∧ mode ≠ some PERSISTENT_ONLY_MODE then
    c.onMemory (Call.GetNodes t m) (fun b => b.GetNodes t m)
  else if mode ≠ some CACHE_ONLY_MODE then
    c.onPersistent (Call.GetNodes t m) (fun b => b.GetNodes t m)
  else
    (Slice.ofList [], c)

/-- Go `CachedBackend.GetEdges`. -/
def GetEdges (c : CachedBackend T M P) (t : Option TimeSlice) (m : T.Metadata) :
    Slice T.Edge × CachedBackend T M P :=
  let mode := c.cacheMode
  if t = none ∧ mode ≠ some PERSISTENT_ONLY_MODE then
    c.onMemory (Call.GetEdges t m) (fun b => b.GetEdges t m)
  else if mode ≠ some CACHE_ONLY_MODE then
    c.onPersistent (Call.GetEdges t m) (fun b => b.GetEdges t m)
  else
    (Slice.ofList [], c)

/-- Go `CachedBackend.WithContext`. -/
def WithContext (c : CachedBackend T M P) (graph : T.Graph) (context : T.GraphContext) :
    (T.Graph × Option T.Error) × CachedBackend T M P :=
  c.onPersistent (Call.WithContext graph context) (fun b => b.WithContext graph context)

end CachedBackend

/-- Go `NewCachedBackend`, given the outcome of `NewMemoryBackend()`: the
struct literal sets `persistent` and `memory` and leaves `cacheMode`
untouched. -/
def NewCachedBackend {T : Types} {M P : Type} (newMemoryBackend : Except T.Error (Instance T M))
    (persistent : Instance T P) : Except T.Error (CachedBackend T M P) :=
  match newMemoryBackend with
  | Except.error err => Except.error err
  | Except.ok memory =>
    Except.ok { memory := memory, persistent := persistent, cacheMode := none, calls := [] }


namespace CachedBackend

variable {T : Types} {M P : Type}

/-- Calls of the history that went to the persistent backend, oldest first. -/
def persistentCalls (c : CachedBackend T M P) : List (Call T) :=
  c.calls.filterMap (fun inv => match inv.1 with
    | Target.persistent => some inv.2
    | Target.memory => none)

/-- Calls of the history that went to the memory backend, oldest first. -/
def memoryCalls (c : CachedBackend T M P) : List (Call T) :=
  c.calls.filterMap (fun inv => match inv.1 with
    | Target.memory => some inv.2
    | Target.persistent => none)

end CachedBackend

/-! ## Sync message codec (`message.go`) -/

/-- Go constant `SyncMsgType`. -/
def SyncMsgType : String := "Sync"

/-- Go constant `SyncRequestMsgType`. -/
def SyncRequestMsgType : String := "SyncRequest"

/-- Go constant `SyncReplyMsgType`. -/
def SyncReplyMsgType : String := "SyncReply"

/-- Go constant `OriginGraphDeletedMsgType`. -/
def OriginGraphDeletedMsgType : String := "OriginGraphDeleted"

/-- Go constant `NodeUpdatedMsgType`. -/
def NodeUpdatedMsgType : String := "NodeUpdated"

/-- Go constant `NodeDeletedMsgType`. -/
def NodeDeletedMsgType : String := "NodeDeleted"

/-- Go constant `NodeAddedMsgType`. -/
def NodeAddedMsgType : String := "NodeAdded"

/-- Go constant `EdgeUpdatedMsgType`. -/
def EdgeUpdatedMsgType : String := "EdgeUpdated"

/-- Go constant `EdgeDeletedMsgType`. -/
def EdgeDeletedMsgType : String := "EdgeDeleted"

/-- Go constant `EdgeAddedMsgType`. -/
def EdgeAddedMsgType : String := "EdgeAdded"

/-- The ten type tags `UnmarshalMessage` has a case for. -/
def knownMsgTypes : List String :=
  [SyncMsgType, SyncRequestMsgType, SyncReplyMsgType, OriginGraphDeletedMsgType,
   NodeUpdatedMsgType, NodeDeletedMsgType, NodeAddedMsgType,
   EdgeUpdatedMsgType, EdgeDeletedMsgType, EdgeAddedMsgType]

/-- Non-nil Go `error` values the codec can return: the two package
variables of `message.go`, the errors of `encoding/json` (a syntax error, or
an `UnmarshalTypeError` naming the kind of the offending JSON value), and
whatever the node and edge decoders report. -/
inductive Error where
  | ErrSyncRequestMalFormed
  | ErrSyncMsgMalFormed
  | invalidJSON
  | unmarshalType (value : String)
  | custom (msg : String)
deriving Repr, DecidableEq

/-- Go `err.Error()` for the two package variables. -/
def Error.text : Error → String
  | Error.ErrSyncRequestMalFormed => "SyncRequestMsg malformed"
  | Error.ErrSyncMsgMalFormed => "SyncMsg/SyncReplyMsg malformed"
  | Error.invalidJSON => "invalid JSON"
  | Error.unmarshalType value => "json: cannot unmarshal " ++ value
  | Error.custom msg => msg

/-- A syntactically valid JSON text, as the value it denotes.  A number
literal without fraction and exponent is `int`; any other number literal is
`real` and keeps its text. -/
inductive JSON where
  | null
  | bool (b : Bool)
  | int (n : Int)
  | real (literal : String)
  | str (s : String)
  | arr (elems : List JSON)
  | obj (members : List (String × JSON))

/-- Bytes of a `json.RawMessage`: either not valid JSON, or the text of a
JSON value. -/
inductive RawMessage where
  | malformed (bytes : String)
  | wellFormed (value : JSON)

/-- Modelled from the spec: the envelope `ws.StructMessage` (package
`websocket`, not among the sources), "an envelope carrying a type tag and an
opaque payload"; the Go field `Type` is `MsgType` here. -/
structure StructMessage where
  MsgType : String
  Obj : RawMessage

/-- Case folding of `encoding/json` on one rune, restricted to what can
match an ASCII field name: ASCII letters fold to lower case, and the two
non-ASCII runes with an ASCII fold (U+017F, U+212A) fold to `s` and `k`. -/
def foldRune (c : Char) : Char :=
  if c = Char.ofNat 0x17F then 's'
  else if c = Char.ofNat 0x212A then 'k'
  else c.toLower

/-- Folded form of an object key or field name. -/
def foldName (s : String) : String := String.mk (s.toList.map foldRune)

/-- Whether object key `key` selects the struct field called `name`: an
exact match, or a match up to case folding. -/
def fieldMatches (name key : String) : Bool :=
  key == name || foldName key == foldName name

/-- Kind of a JSON value as `json.UnmarshalTypeError` reports it. -/
def JSON.kind : JSON → String
  | JSON.null => "null"
  | JSON.bool _ => "bool"
  | JSON.int _ => "number"
  | JSON.real _ => "number"
  | JSON.str _ => "string"
  | JSON.arr _ => "array"
  | JSON.obj _ => "object"

/-- Decoder of `encoding/json` storing a value into an `int64` field that
holds `old`: `null` leaves the field alone, an integer literal in range is
stored, everything else is a type error. -/
def storeInt64 (old : Int) : JSON → Except Error Int
  | JSON.null => Except.ok old
  | JSON.int n =>
    if -(2 : Int) ^ 63 ≤ n ∧ n < (2 : Int) ^ 63 then Except.ok n
    else Except.error (Error.unmarshalType "number")
  | v => Except.error (Error.unmarshalType v.kind)

/-- Decoder of `encoding/json` storing a value into a `string` field that
holds `old`. -/
def storeString (old : String) : JSON → Except Error String
  | JSON.null => Except.ok old
  | JSON.str s => Except.ok s
  | v => Except.error (Error.unmarshalType v.kind)

/-- The anonymous struct `raw` of `SyncRequestMsg.UnmarshalJSON`. -/
structure RawSyncRequest where
  Time : Int
  GremlinFilter : String
deriving Repr, DecidableEq

/-- Members of a JSON object decoded in order into `raw`.  A type error
does not stop the decoder: the first one is kept in the second component
and the remaining members are still visited. -/
def unmarshalRawMembers :
    List (String × JSON) → RawSyncRequest × Option Error → RawSyncRequest × Option Error
  | [], st => st
  | (key, v) :: rest, (raw, saved) =>
    if fieldMatches "Time" key then
      match storeInt64 raw.Time v with
      | Except.ok t => unmarshalRawMembers rest ({ raw with Time := t }, saved)
      | Except.error e => unmarshalRawMembers rest (raw, saved.orElse (fun _ => some e))
    else if fieldMatches "GremlinFilter" key then
      match storeString raw.GremlinFilter v with
      | Except.ok s => unmarshalRawMembers rest ({ raw with GremlinFilter := s }, saved)
      | Except.error e => unmarshalRawMembers rest (raw, saved.orElse (fun _ => some e))
    else
      unmarshalRawMembers rest (raw, saved)

/-- Go `json.Unmarshal(b, &raw)` for the zero-valued `raw` of
`SyncRequestMsg.UnmarshalJSON`. -/
def unmarshalRaw (b : RawMessage) : Except Error RawSyncRequest :=
  let zero : RawSyncRequest := { Time := 0, GremlinFilter := "" }
  match b with
  | RawMessage.malformed _ => Except.error Error.invalidJSON
  | RawMessage.wellFormed JSON.null => Except.ok zero
  | RawMessage.wellFormed (JSON.obj members) =>
    match unmarshalRawMembers members (zero, none) with
    | (raw, none) => Except.ok raw
    | (_, some e) => Except.error e
  | RawMessage.wellFormed v => Except.error (Error.unmarshalType v.kind)

/-- Struct `SyncRequestMsg`: the `TimeSlice` pointer of the embedded
`Context` (nil = `none`) and `GremlinFilter`. -/
structure SyncRequestMsg where
  TimeSlice : Option TimeSlice
  GremlinFilter : String
deriving Repr, DecidableEq

/-- Go `SyncRequestMsg.UnmarshalJSON`: the returned error and the receiver
after the call. -/
def SyncRequestMsg.UnmarshalJSON (s : SyncRequestMsg) (b : RawMessage) :
    Option Error × SyncRequestMsg :=
  match unmarshalRaw b with
  | Except.error err => (some err, s)
  | Except.ok raw =>
    let s1 := if raw.Time ≠ 0 then
        { s with TimeSlice := some (NewTimeSlice raw.Time raw.Time) }
      else s
    let s2 := { s1 with GremlinFilter := raw.GremlinFilter }
    (none, s2)

/-- Struct `SyncMsg`.  An element of `[]*Node` is a pointer, nil (`none`)
when the JSON element was `null`. -/
structure SyncMsg (Node Edge : Type) where
  Nodes : Slice (Option Node)
  Edges : Slice (Option Edge)

/-- Elements of a JSON array decoded into a slice of pointers: `null` gives
a nil pointer, any other element is handed to the element decoder, whose
error stops the decoding. -/
def unmarshalElems {α : Type} (decodeElem : JSON → Except Error α) :
    List JSON → Except Error (List (Option α))
  | [] => Except.ok []
  | JSON.null :: rest =>
    match unmarshalElems decodeElem rest with
    | Except.ok out => Except.ok (none :: out)
    | Except.error e => Except.error e
  | v :: rest =>
    match decodeElem v with
    | Except.error e => Except.error e
    | Except.ok a =>
      match unmarshalElems decodeElem rest with
      | Except.ok out => Except.ok (some a :: out)
      | Except.error e => Except.error e

/-- Outcome of storing one value into a struct field: stored, refused with
a type error the decoder remembers while it goes on, or stopped by the
error of a custom decoder. -/
inductive Stored (α : Type) where
  | ok (a : α)
  | typeError (e : Error)
  | stop (e : Error)

/-- Decoder of `encoding/json` storing a value into a field of type
`[]*Node` (or `[]*Edge`) that holds `old`: `null` makes the slice nil, an
array replaces it. -/
def storeSlice {α : Type} (decodeElem : JSON → Except Error α) (_old : Slice (Option α)) :
    JSON → Stored (Slice (Option α))
  | JSON.null => Stored.ok Slice.nil
  | JSON.arr elems =>
    match unmarshalElems decodeElem elems with
    | Except.ok out => Stored.ok (Slice.ofList out)
    | Except.error e => Stored.stop e
  | v => Stored.typeError (Error.unmarshalType v.kind)

/-- Members of a JSON object decoded in order into a `SyncMsg`. -/
def unmarshalSyncMembers {Node Edge : Type} (decodeNode : JSON → Except Error Node)
    (decodeEdge : JSON → Except Error Edge) :
    List (String × JSON) → SyncMsg Node Edge × Option Error →
      Except Error (SyncMsg Node Edge × Option Error)
  | [], st => Except.ok st
  | (key, v) :: rest, (m, saved) =>
    if fieldMatches "Nodes" key then
      match storeSlice decodeNode m.Nodes v with
      | Stored.ok ns =>
        unmarshalSyncMembers decodeNode decodeEdge rest ({ m with Nodes := ns }, saved)
      | Stored.typeError e =>
        unmarshalSyncMembers decodeNode decodeEdge rest (m, saved.orElse (fun _ => some e))
      | Stored.stop e => Except.error e
    else if fieldMatches "Edges" key then
      match storeSlice decodeEdge m.Edges v with
      | Stored.ok es =>
        unmarshalSyncMembers decodeNode decodeEdge rest ({ m with Edges := es }, saved)
      | Stored.typeError e =>
        unmarshalSyncMembers decodeNode decodeEdge rest (m, saved.orElse (fun _ => some e))
      | Stored.stop e => Except.error e
    else
      unmarshalSyncMembers decodeNode decodeEdge rest (m, saved)

/-- Go `json.Unmarshal(b, &syncMsg)` for the zero-valued `syncMsg`. -/
def unmarshalSyncMsg {Node Edge : Type} (decodeNode : JSON → Except Error Node)
    (decodeEdge : JSON → Except Error Edge) (b : RawMessage) :
    Except Error (SyncMsg Node Edge) :=
  let zero : SyncMsg Node Edge := { Nodes := Slice.nil, Edges := Slice.nil }
  match b with
  | RawMessage.malformed _ => Except.error Error.invalidJSON
  | RawMessage.wellFormed JSON.null => Except.ok zero
  | RawMessage.wellFormed (JSON.obj members) =>
    match unmarshalSyncMembers decodeNode decodeEdge members (zero, none) with
    | Except.error e => Except.error e
    | Except.ok (m, none) => Except.ok m
    | Except.ok (_, some e) => Except.error e
  | RawMessage.wellFormed v => Except.error (Error.unmarshalType v.kind)

/-- Go `json.Unmarshal(b, &origin)` for the zero-valued string `origin`. -/
def unmarshalString (b : RawMessage) : Except Error String :=
  match b with
  | RawMessage.malformed _ => Except.error Error.invalidJSON
  | RawMessage.wellFormed v => storeString "" v

/-- Go `json.Unmarshal(b, &node)` (and `&edge`): the entity decoder of
`graph.go`, not among the sources, is the parameter `decode`; it is only
reached with valid JSON. -/
def unmarshalEntity {α : Type} (decode : JSON → Except Error α) (b : RawMessage) :
    Except Error α :=
  match b with
  | RawMessage.malformed _ => Except.error Error.invalidJSON
  | RawMessage.wellFormed v => decode v

/-- Dynamic value returned by `UnmarshalMessage` as its `interface{}`. -/
inductive Message (Node Edge : Type) where
  | envelope (msg : StructMessage)
  | syncRequest (m : SyncRequestMsg)
  | sync (m : SyncMsg Node Edge)
  | origin (s : String)
  | node (n : Node)
  | edge (e : Edge)

/-- Go `UnmarshalMessage`.  `msg.UnmarshalObj(&x)` is the JSON decoding of
the payload `msg.Obj` into `x`. -/
def UnmarshalMessage {Node Edge : Type} (decodeNode : JSON → Except Error Node)
    (decodeEdge : JSON → Except Error Edge) (msg : StructMessage) :
    String × Message Node Edge × Option Error :=
  if msg.MsgType = SyncRequestMsgType then
    let syncRequest : SyncRequestMsg := { TimeSlice := none, GremlinFilter := "" }
    match syncRequest.UnmarshalJSON msg.Obj with
    | (some err, _) => ("", Message.envelope msg, some err)
    | (none, decoded) => (msg.MsgType, Message.syncRequest decoded, none)
  else if msg.MsgType = SyncMsgType ∨ msg.MsgType = SyncReplyMsgType then
    match unmarshalSyncMsg decodeNode decodeEdge msg.Obj with
    | Except.error err => ("", Message.envelope msg, some err)
    | Except.ok syncMsg => (msg.MsgType, Message.sync syncMsg, none)
  else if msg.MsgType = OriginGraphDeletedMsgType then
    match unmarshalString msg.Obj with
    | Except.error err => ("", Message.envelope msg, some err)
    | Except.ok origin => (msg.MsgType, Message.origin origin, none)
  else if msg.MsgType = NodeUpdatedMsgType ∨ msg.MsgType = NodeDeletedMsgType
      ∨ msg.MsgType = NodeAddedMsgType then
    match unmarshalEntity decodeNode msg.Obj with
    | Except.error err => ("", Message.envelope msg, some err)
    | Except.ok node => (msg.MsgType, Message.node node, none)
  else if msg.MsgType = EdgeUpdatedMsgType ∨ msg.MsgType = EdgeDeletedMsgType
      ∨ msg.MsgType = EdgeAddedMsgType then
    match unmarshalEntity decodeEdge msg.Obj with
    | Except.error err => ("", Message.envelope msg, some err)
    | Except.ok edge => (msg.MsgType, Message.edge edge, none)
  else
    ("", Message.envelope msg, none)

/-! ## Worked instances -/

/-- Carrier types of the worked instances: every pointer is a number. -/
abbrev exTypes : Types :=
  { Node := Nat, Edge := Nat, Metadata := Unit, Any := Nat, Graph := Nat, GraphContext := Unit,
    Error := String }

/-- A backend answering every call with fixed values; its state counts the
calls it received. -/
def constBackend (changed : Bool) (nodes edges : Slice Nat) : GraphBackend exTypes Nat :=
  { NodeAdded := fun _ s => (changed, s + 1)
    NodeDeleted := fun _ s => (changed, s + 1)
    GetNode := fun _ _ s => (nodes, s + 1)
    GetNodeEdges := fun _ _ _ s => (edges, s + 1)
    EdgeAdded := fun _ s => (changed, s + 1)
    EdgeDeleted := fun _ s => (changed, s + 1)
    GetEdge := fun _ _ s => (edges, s + 1)
    GetEdgeNodes := fun _ _ _ _ s => ((nodes, nodes), s + 1)
    MetadataUpdated := fun _ s => (changed, s + 1)
    GetNodes := fun _ _ s => (nodes, s + 1)
    GetEdges := fun _ _ s => (edges, s + 1)
    WithContext := fun g _ s => ((g, none), s + 1) }

/-- A `CachedBackend` in the given mode whose memory backend reports "no
change" and holds nothing, and whose persistent backend reports "changed"
and holds node 7 and edge 9. -/
def exBackend (mode : Option Int) : CachedBackend exTypes Nat Nat :=
  { memory := { impl := constBackend false (Slice.ofList []) (Slice.ofList []), state := 0 }
    persistent := { impl := constBackend true (Slice.ofList [7]) (Slice.ofList [9]), state := 0 }
    cacheMode := mode
    calls := [] }

/-- An entity decoder that rejects every value. -/
def rejectAll (v : JSON) : Except Error Nat := Except.error (Error.custom v.kind)


/-- Modelled from the spec: the JSON encoding of a `SyncRequestMsg`
(`json.Marshal` of the struct; no encoder for it is among the sources).  The
spec gives the shape "SyncRequest: optional TimeSlice, filter-expression
string": an object with the member `TimeSlice`, `null` for a nil pointer and
otherwise an object with `Start` and `Last`, and the member `GremlinFilter`. -/
def marshalSyncRequestMsg (m : SyncRequestMsg) : JSON :=
  JSON.obj
    [("TimeSlice",
        match m.TimeSlice with
        | none => JSON.null
        | some ts => JSON.obj [("Start", JSON.int ts.Start), ("Last", JSON.int ts.Last)]),
     ("GremlinFilter", JSON.str m.GremlinFilter)]

/-- The `SyncRequest` envelope whose payload is the encoding of `m`. -/
def syncRequestEnvelope (m : SyncRequestMsg) : StructMessage :=
  { MsgType := SyncRequestMsgType, Obj := RawMessage.wellFormed (marshalSyncRequestMsg m) }

/-- The zero-valued `var syncRequest SyncRequestMsg` that `UnmarshalMessage`
decodes into. -/
def zeroSyncRequestMsg : SyncRequestMsg := { TimeSlice := none, GremlinFilter := "" }

/-! ## Historized store driven through the graph facade (`orientdb_test.go`)

The store client is the one of the test, `fakeOrientDBClient`, translated
from the source.  The OrientDB backend and the graph facade are not among the
sources; they are modelled from the spec (§3, §4.2, §6) and checked against
the operation lists `TestLocalHistory` expects. -/

namespace Historized

/-- An instant in whole seconds since the epoch, as built by `Unix(sec, 0)`. -/
abbrev Time := Int

/-- Go `Unix(sec, 0)`. -/
def Unix (sec : Int) : Time := sec

/-- Modelled from the spec: the time stamp persisted for an instant (the
helper `common.UnixMillis` is not among the sources).  Spec §6: "Time values
in the persisted record are milliseconds since epoch ... an implementer must
multiply the in-memory second-resolution TimeSlice by 1000 when persisting". -/
def UnixMillis (t : Time) : Int := 1000 * t

/-- Go `Metadata` (`map[string]interface{}`), as an association list with
one entry per key. -/
abbrev Metadata := List (String × JSON)

/-- Go `m[key] = value`: replace the entry of `key`, or add it. -/
def Metadata.set : Metadata → String → JSON → Metadata
  | [], key, value => [(key, value)]
  | (k, v) :: rest, key, value =>
    if k = key then (k, value) :: rest else (k, v) :: Metadata.set rest key value

/-- Modelled from the spec: a graph node (struct `Node` of `graph.go`, not
among the sources).  Spec §3: Identifier, Metadata, Host, Origin and the
lifecycle stamps CreatedAt, UpdatedAt, DeletedAt (nullable), Revision. -/
structure Node where
  ID : Identifier
  Metadata : Metadata
  Host : String
  Origin : String
  CreatedAt : Time
  UpdatedAt : Time
  DeletedAt : Option Time
  Revision : Int

/-- Modelled from the spec: a graph edge (struct `Edge` of `graph.go`, not
among the sources): like a node, with the `Parent` and `Child` identifiers
(spec §3). -/
structure Edge where
  ID : Identifier
  Parent : Identifier
  Child : Identifier
  Metadata : Metadata
  Host : String
  Origin : String
  CreatedAt : Time
  UpdatedAt : Time
  DeletedAt : Option Time
  Revision : Int

/-- A document handed to `CreateDocument`, with the keys of the maps
`TestLocalHistory` expects (`@class` is `Class`). -/
structure Document where
  Class : String
  ID : String
  Host : String
  Origin : String
  Metadata : Metadata
  CreatedAt : Int
  UpdatedAt : Int
  DeletedAt : Option Int
  Revision : Int

/-- The `data interface{}` of an `op`: a document or a query string. -/
inductive OpData where
  | document (doc : Document)
  | query (text : String)

/-- Struct `op` of the test: the name of the client method and its argument. -/
structure op where
  name : String
  data : OpData

/-- Response `orientdb.Result`: the records of the `result` array of its
body, each a JSON object. -/
structure Result where
  Body : List (List (String × JSON))

/-- Struct `fakeOrientDBClient` of the test. -/
structure fakeOrientDBClient where
  ops : List op
  result : Result

/-- Go `fakeOrientDBClient.getOps`. -/
def fakeOrientDBClient.getOps (f : fakeOrientDBClient) : List op := f.ops

/-- Go `fakeOrientDBClient.CreateDocument`: record the document. -/
def fakeOrientDBClient.CreateDocument (f : fakeOrientDBClient) (doc : Document) :
    fakeOrientDBClient :=
  { f with ops := f.ops ++ [{ name := "CreateDocument", data := OpData.document doc }] }

/-- Go `fakeOrientDBClient.Search`: record the query and answer with the
canned result. -/
def fakeOrientDBClient.Search (f : fakeOrientDBClient) (query : String) :
    Result × fakeOrientDBClient :=
  (f.result, { f with ops := f.ops ++ [{ name := "Search", data := OpData.query query }] })

/-- Value of member `key` in a record. -/
def lookupMember (key : String) : List (String × JSON) → Option JSON
  | [] => none
  | (k, v) :: rest => if k = key then some v else lookupMember key rest

/-- String value of member `key` in a record, empty when absent. -/
def stringMember (key : String) (record : List (String × JSON)) : String :=
  match lookupMember key record with
  | some (JSON.str s) => s
  | _ => ""

/-- Modelled from the spec: how many rows a conditional update matched, read
from the store response (the backend `orientdb.go` is not among the sources).
Spec §7: "the archive step simply matches zero rows"; the response of the
test is the record `value: 1`. -/
def Result.matched (r : Result) : Int :=
  match r.Body with
  | record :: _ =>
    match lookupMember "value" record with
    | some (JSON.int n) => n
    | _ => 0
  | [] => 0

/-- Modelled from the spec: the edges a select response lists, one per
record (the backend `orientdb.go` is not among the sources).  Spec §4.2:
"every edge whose Parent or Child matches the node's identifier and is still
live is independently looked up". -/
def Result.edges (r : Result) : List Edge :=
  r.Body.map (fun record =>
    { ID := stringMember "ID" record, Parent := stringMember "Parent" record,
      Child := stringMember "Child" record, Metadata := [], Host := stringMember "Host" record,
      Origin := stringMember "Origin" record, CreatedAt := 0, UpdatedAt := 0, DeletedAt := none,
      Revision := 0 })

/-- Modelled from the spec: the document persisted for a node revision (the
backend `orientdb.go` is not among the sources).  Spec §6: one row per
revision with ID, Host, Origin, Metadata, CreatedAt, UpdatedAt, DeletedAt,
Revision, times in milliseconds. -/
def nodeDocument (n : Node) : Document :=
  { Class := "Node", ID := n.ID, Host := n.Host, Origin := n.Origin, Metadata := n.Metadata,
    CreatedAt := UnixMillis n.CreatedAt, UpdatedAt := UnixMillis n.UpdatedAt,
    DeletedAt := n.DeletedAt.map UnixMillis, Revision := n.Revision }

/-- Modelled from the spec: the conditional archive statement (the backend
`orientdb.go` is not among the sources).  Spec §4.2 (a): "mark the
currently-live revision's ArchivedAt = now via a conditional update matched
by identifier AND still live (DeletedAt IS NULL AND ArchivedAt IS NULL)". -/
def archiveQuery (className : String) (at_ : Int) (id : Identifier) : String :=
  "UPDATE " ++ className ++ " SET ArchivedAt = " ++ toString at_
    ++ " WHERE DeletedAt IS NULL AND ArchivedAt IS NULL AND ID = '" ++ id ++ "'"

/-- Modelled from the spec: the conditional delete statement (the backend
`orientdb.go` is not among the sources).  Spec §4.2: "stamp DeletedAt =
ArchivedAt = now on the live revision". -/
def deleteQuery (className : String) (at_ : Int) (id : Identifier) : String :=
  "UPDATE " ++ className ++ " SET DeletedAt = " ++ toString at_ ++ ", ArchivedAt = "
    ++ toString at_ ++ " WHERE DeletedAt IS NULL AND ArchivedAt IS NULL AND ID = '" ++ id ++ "'"

/-- Modelled from the spec: the query for the edges of a node (the backend
`orientdb.go` is not among the sources).  Spec §4.2: "every edge whose
Parent or Child matches the node's identifier and is still live". -/
def nodeEdgesQuery (id : Identifier) : String :=
  "SELECT FROM Link WHERE ArchivedAt is NULL AND (Parent = '" ++ id ++ "' OR Child = '" ++ id
    ++ "')"

/-- Modelled from the spec: backend `NodeAdded` of the historized store
(`orientdb.go` is not among the sources).  Spec §4.2 Create: "insert a new
document". -/
def OrientDBBackend.NodeAdded (client : fakeOrientDBClient) (n : Node) :
    Bool × fakeOrientDBClient :=
  (true, client.CreateDocument (nodeDocument n))

/-- Modelled from the spec: backend `MetadataUpdated` of the historized
store for a node (`orientdb.go` is not among the sources).  Spec §4.2 Update:
(a) archive the live revision at the node's update time, (b) insert the new
document; "if step (a) matches zero rows ... step (b) must still be
skipped". -/
def OrientDBBackend.MetadataUpdated (client : fakeOrientDBClient) (n : Node) :
    Bool × fakeOrientDBClient :=
  let out := client.Search (archiveQuery "Node" (UnixMillis n.UpdatedAt) n.ID)
  if out.1.matched = 1 then
    (true, out.2.CreateDocument (nodeDocument n))
  else
    (false, out.2)

/-- Modelled from the spec: backend `GetNodeEdges` of the historized store
for the live state (`orientdb.go` is not among the sources). -/
def OrientDBBackend.GetNodeEdges (client : fakeOrientDBClient) (n : Node) :
    List Edge × fakeOrientDBClient :=
  let out := client.Search (nodeEdgesQuery n.ID)
  (out.1.edges, out.2)

/-- Modelled from the spec: backend `EdgeDeleted` of the historized store
(`orientdb.go` is not among the sources).  Spec §4.2 Delete, for an edge
stamped with its deletion time `at_`. -/
def OrientDBBackend.EdgeDeleted (client : fakeOrientDBClient) (e : Edge) (at_ : Time) :
    Bool × fakeOrientDBClient :=
  let out := client.Search (deleteQuery "Link" (UnixMillis at_) e.ID)
  (out.1.matched = 1, out.2)

/-- Modelled from the spec: backend `NodeDeleted` of the historized store
(`orientdb.go` is not among the sources).  Spec §4.2 Delete, for a node
stamped with its deletion time `at_`. -/
def OrientDBBackend.NodeDeleted (client : fakeOrientDBClient) (n : Node) (at_ : Time) :
    Bool × fakeOrientDBClient :=
  let out := client.Search (deleteQuery "Node" (UnixMillis at_) n.ID)
  (out.1.matched = 1, out.2)

/-- Modelled from the spec: the graph facade over the historized store
(struct `Graph` of `graph.go`, not among the sources), built by
`NewGraphFromConfig(backend, service)`. -/
structure Graph where
  client : fakeOrientDBClient
  service : String

/-- Go `newOrientDBGraph` of the test: a graph over a fresh fake client.  The
canned result is a parameter; the test assigns it before the calls. -/
def newOrientDBGraph (service : String) (result : Result) : Graph :=
  { client := { ops := [], result := result }, service := service }

/-- Modelled from the spec: facade `CreateNode(id, metadata, time, host)`
(`graph.go` is not among the sources).  Spec §4.2 Create: "Revision=1,
CreatedAt=UpdatedAt=now, DeletedAt=ArchivedAt=null"; the origin is the
service followed by the host, as `TestLocalHistory` builds it. -/
def Graph.CreateNode (g : Graph) (id : Identifier) (m : Metadata) (t : Time) (host : String) :
    Node :=
  { ID := id, Metadata := m, Host := host, Origin := g.service ++ "." ++ host, CreatedAt := t,
    UpdatedAt := t, DeletedAt := none, Revision := 1 }

/-- Modelled from the spec: facade `AddNode` (`graph.go` is not among the
sources): forward the node to the backend. -/
def Graph.AddNode (g : Graph) (n : Node) : Bool × Graph :=
  let out := OrientDBBackend.NodeAdded g.client n
  (out.1, { g with client := out.2 })

/-- Modelled from the spec: facade `addMetadata(node, key, value, time)`
(`graph.go` is not among the sources).  Spec §3, §4.2: a metadata update
stamps `UpdatedAt`, increases `Revision` by 1, keeps `CreatedAt`, and
produces a new revision in the store. -/
def Graph.addMetadata (g : Graph) (n : Node) (key : String) (value : JSON) (t : Time) :
    Bool × Node × Graph :=
  let n1 : Node :=
    { n with Metadata := n.Metadata.set key value, UpdatedAt := t, Revision := n.Revision + 1 }
  let out := OrientDBBackend.MetadataUpdated g.client n1
  (out.1, n1, { g with client := out.2 })

/-- Modelled from the spec: facade `delEdge(edge, time)` (`graph.go` is not
among the sources): soft-delete the edge in the backend. -/
def Graph.delEdge (g : Graph) (e : Edge) (t : Time) : Bool × Graph :=
  let out := OrientDBBackend.EdgeDeleted g.client e t
  (out.1, { g with client := out.2 })

/-- The loop of `delNode` over the edges of the node. -/
def Graph.delEdges (g : Graph) (t : Time) : List Edge → Graph
  | [] => g
  | e :: rest => Graph.delEdges (g.delEdge e t).2 t rest

/-- Modelled from the spec: facade `delNode(node, time)` (`graph.go` is not
among the sources).  Spec §4.2: "Deleting a node cascades: every edge whose
Parent or Child matches the node's identifier and is still live is
independently looked up and soft-deleted with the same timestamp", then the
node's live revision is stamped. -/
def Graph.delNode (g : Graph) (n : Node) (t : Time) : Bool × Graph :=
  let found := OrientDBBackend.GetNodeEdges g.client n
  let g1 := Graph.delEdges { g with client := found.2 } t found.1
  let out := OrientDBBackend.NodeDeleted g1.client n t
  (out.1, { g1 with client := out.2 })

/-- One metadata update asked of the facade. -/
structure Update where
  key : String
  value : JSON
  time : Time

/-- Successive calls of `addMetadata` on the same node, in order. -/
def Graph.addMetadataAll (g : Graph) (n : Node) : List Update → Node × Graph
  | [] => (n, g)
  | u :: rest =>
    let out := g.addMetadata n u.key u.value u.time
    Graph.addMetadataAll out.2.2 out.2.1 rest

/-- The canned response of `TestLocalHistory` during creation and updates:
the single record `value: 1`. -/
def oneRowMatched : Result := { Body := [[("value", JSON.int 1)]] }

/-- Operations a node revision chain adds to the store, update by update. -/
def chainOps (n : Node) : List Update → List op
  | [] => []
  | u :: rest =>
    let n1 : Node :=
      { n with Metadata := n.Metadata.set u.key u.value, UpdatedAt := u.time,
               Revision := n.Revision + 1 }
    { name := "Search", data := OpData.query (archiveQuery "Node" (UnixMillis u.time) n.ID) }
      :: { name := "CreateDocument", data := OpData.document (nodeDocument n1) }
      :: chainOps n1 rest

/-- The calls of `TestLocalHistory` up to its metadata updates, for any node
and any list of updates: a graph over a fresh client answering `value: 1`,
`CreateNode`, `AddNode`, then one `addMetadata` per update.  The result is
what `client.getOps()` returns afterwards. -/
def localHistory (service : String) (id : Identifier) (m : Metadata) (t0 : Time)
    (host : String) (updates : List Update) : Node × Graph :=
  let g := newOrientDBGraph service oneRowMatched
  let node := g.CreateNode id m t0 host
  (g.AddNode node).2.addMetadataAll node updates

/-- The canned response `TestLocalHistory` installs before `delNode`: one
edge record with ID `bbb`. -/
def oneEdgeFound : Result :=
  { Body := [[("ID", JSON.str "bbb"), ("Parent", JSON.str "123"), ("Child", JSON.str "456")]] }

/-- The whole of `TestLocalHistory`: node `aaa` on `host1` with MTU 1500 at
1 s, MTU 1510 at 2 s, MTU 1520 at 3 s, then, with the edge `bbb` as canned
response, `delNode` at 4 s. -/
def testLocalHistory (service : String) : List op :=
  let run := localHistory service "aaa" [("MTU", JSON.int 1500)] (Unix 1) "host1"
    [{ key := "MTU", value := JSON.int 1510, time := Unix 2 },
     { key := "MTU", value := JSON.int 1520, time := Unix 3 }]
  let g : Graph := { run.2 with client := { run.2.client with result := oneEdgeFound } }
  (g.delNode run.1 (Unix 4)).2.client.getOps

end Historized

/-! ## Write routing of `CachedBackend` -/

section WriteRouting

variable {T : Types} {M P : Type}

open CachedBackend

/-- C1: for `NodeAdded`, `NodeDeleted`, `EdgeAdded` and `EdgeDeleted`, whatever
the backends are and return, the invocations added to the history are
exactly `[memory]` in `CACHE_ONLY_MODE`, `[persistent]` in
`PERSISTENT_ONLY_MODE` and `[memory, persistent]` in `DEFAULT_MODE`, each
being the same-named method with the same argument; in `DEFAULT_MODE` both
backends end in the state their own same-named method produces. -/
theorem write_invocation_sequence (c : CachedBackend T M P) (n : T.Node) (e : T.Edge) :
    (((c.SetMode CACHE_ONLY_MODE).NodeAdded n).2.calls
        = c.calls ++ [(Target.memory, Call.NodeAdded n)]
      ∧ ((c.SetMode CACHE_ONLY_MODE).NodeDeleted n).2.calls
        = c.calls ++ [(Target.memory, Call.NodeDeleted n)]
      ∧ ((c.SetMode CACHE_ONLY_MODE).EdgeAdded e).2.calls
        = c.calls ++ [(Target.memory, Call.EdgeAdded e)]
      ∧ ((c.SetMode CACHE_ONLY_MODE).EdgeDeleted e).2.calls
        = c.calls ++ [(Target.memory, Call.EdgeDeleted e)])
    ∧ (((c.SetMode PERSISTENT_ONLY_MODE).NodeAdded n).2.calls
        = c.calls ++ [(Target.persistent, Call.NodeAdded n)]
      ∧ ((c.SetMode PERSISTENT_ONLY_MODE).NodeDeleted n).2.calls
        = c.calls ++ [(Target.persistent, Call.NodeDeleted n)]
      ∧ ((c.SetMode PERSISTENT_ONLY_MODE).EdgeAdded e).2.calls
        = c.calls ++ [(Target.persistent, Call.EdgeAdded e)]
      ∧ ((c.SetMode PERSISTENT_ONLY_MODE).EdgeDeleted e).2.calls
        = c.calls ++ [(Target.persistent, Call.EdgeDeleted e)])
    ∧ (((c.SetMode DEFAULT_MODE).NodeAdded n).2.calls
        = c.calls ++ [(Target.memory, Call.NodeAdded n), (Target.persistent, Call.NodeAdded n)]
      ∧ ((c.SetMode DEFAULT_MODE).NodeDeleted n).2.calls
        = c.calls ++ [(Target.memory, Call.NodeDeleted n), (Target.persistent, Call.NodeDeleted n)]
      ∧ ((c.SetMode DEFAULT_MODE).EdgeAdded e).2.calls
        = c.calls ++ [(Target.memory, Call.EdgeAdded e), (Target.persistent, Call.EdgeAdded e)]
      ∧ ((c.SetMode DEFAULT_MODE).EdgeDeleted e).2.calls
        = c.calls ++ [(Target.memory, Call.EdgeDeleted e), (Target.persistent, Call.EdgeDeleted e)])
    ∧ ((((c.SetMode DEFAULT_MODE).NodeAdded n).2.memory.state
          = (c.memory.impl.NodeAdded n c.memory.state).2
        ∧ ((c.SetMode DEFAULT_MODE).NodeAdded n).2.persistent.state
          = (c.persistent.impl.NodeAdded n c.persistent.state).2)
      ∧ (((c.SetMode DEFAULT_MODE).NodeDeleted n).2.memory.state
          = (c.memory.impl.NodeDeleted n c.memory.state).2
        ∧ ((c.SetMode DEFAULT_MODE).NodeDeleted n).2.persistent.state
          = (c.persistent.impl.NodeDeleted n c.persistent.state).2)
      ∧ (((c.SetMode DEFAULT_MODE).EdgeAdded e).2.memory.state
          = (c.memory.impl.EdgeAdded e c.memory.state).2
        ∧ ((c.SetMode DEFAULT_MODE).EdgeAdded e).2.persistent.state
          = (c.persistent.impl.EdgeAdded e c.persistent.state).2)
      ∧ (((c.SetMode DEFAULT_MODE).EdgeDeleted e).2.memory.state
          = (c.memory.impl.EdgeDeleted e c.memory.state).2
        ∧ ((c.SetMode DEFAULT_MODE).EdgeDeleted e).2.persistent.state
          = (c.persistent.impl.EdgeDeleted e c.persistent.state).2)) := by
  refine ⟨⟨rfl, rfl, rfl, rfl⟩, ⟨rfl, rfl, rfl, rfl⟩, ⟨?_, ?_, ?_, ?_⟩,
    ⟨⟨rfl, rfl⟩, ⟨rfl, rfl⟩, ⟨rfl, rfl⟩, ⟨rfl, rfl⟩⟩⟩ <;>
  simp [NodeAdded, NodeDeleted, EdgeAdded, EdgeDeleted, SetMode, onMemory, onPersistent,
    DEFAULT_MODE, CACHE_ONLY_MODE, PERSISTENT_ONLY_MODE]

/-- C2: for `NodeAdded`, `NodeDeleted`, `EdgeAdded` and `EdgeDeleted`, when the
mode is not `CACHE_ONLY_MODE` the returned boolean is the one the persistent
backend returned, and it is the same whichever memory backend (methods and
state) is plugged in; in `CACHE_ONLY_MODE` the returned boolean is the one
the memory backend returned. -/
theorem write_result_source (c : CachedBackend T M P) (n : T.Node) (e : T.Edge)
    (h : c.cacheMode ≠ some CACHE_ONLY_MODE) :
    ((c.NodeAdded n).1 = (c.persistent.impl.NodeAdded n c.persistent.state).1
      ∧ (c.NodeDeleted n).1 = (c.persistent.impl.NodeDeleted n c.persistent.state).1
      ∧ (c.EdgeAdded e).1 = (c.persistent.impl.EdgeAdded e c.persistent.state).1
      ∧ (c.EdgeDeleted e).1 = (c.persistent.impl.EdgeDeleted e c.persistent.state).1)
    ∧ (∀ (M2 : Type) (memory2 : Instance T M2),
        ((c.withMemory memory2).NodeAdded n).1 = (c.NodeAdded n).1
        ∧ ((c.withMemory memory2).NodeDeleted n).1 = (c.NodeDeleted n).1
        ∧ ((c.withMemory memory2).EdgeAdded e).1 = (c.EdgeAdded e).1
        ∧ ((c.withMemory memory2).EdgeDeleted e).1 = (c.EdgeDeleted e).1)
    ∧ (((c.SetMode CACHE_ONLY_MODE).NodeAdded n).1
          = (c.memory.impl.NodeAdded n c.memory.state).1
      ∧ ((c.SetMode CACHE_ONLY_MODE).NodeDeleted n).1
          = (c.memory.impl.NodeDeleted n c.memory.state).1
      ∧ ((c.SetMode CACHE_ONLY_MODE).EdgeAdded e).1
          = (c.memory.impl.EdgeAdded e c.memory.state).1
      ∧ ((c.SetMode CACHE_ONLY_MODE).EdgeDeleted e).1
          = (c.memory.impl.EdgeDeleted e c.memory.state).1) := by
  have key : ∀ (M2 : Type) (d : CachedBackend T M2 P), d.persistent = c.persistent →
      d.cacheMode = c.cacheMode →
      (d.NodeAdded n).1 = (c.persistent.impl.NodeAdded n c.persistent.state).1
      ∧ (d.NodeDeleted n).1 = (c.persistent.impl.NodeDeleted n c.persistent.state).1
      ∧ (d.EdgeAdded e).1 = (c.persistent.impl.EdgeAdded e c.persistent.state).1
      ∧ (d.EdgeDeleted e).1 = (c.persistent.impl.EdgeDeleted e c.persistent.state).1 := by
    intro M2 d hp hm
    have hd : d.cacheMode ≠ some CACHE_ONLY_MODE := by rw [hm]; exact h
    refine ⟨?_, ?_, ?_, ?_⟩ <;>
    · simp only [NodeAdded, NodeDeleted, EdgeAdded, EdgeDeleted, hd, ne_eq, not_false_eq_true,
        if_true, onPersistent, onMemory]
      split <;> simp [hp]
  refine ⟨key M c rfl rfl, ?_, ⟨rfl, rfl, rfl, rfl⟩⟩
  intro M2 memory2
  have h2 := key M2 (c.withMemory memory2) rfl rfl
  have h1 := key M c rfl rfl
  exact ⟨h2.1.trans h1.1.symm, h2.2.1.trans h1.2.1.symm, h2.2.2.1.trans h1.2.2.1.symm,
    h2.2.2.2.trans h1.2.2.2.symm⟩

/-- Witness of C2 in `DEFAULT_MODE`: the persistent backend of `exBackend`
reports "changed", the memory backend "no change", and `NodeAdded` returns
"changed". -/
theorem write_result_source_witness :
    (exBackend (some DEFAULT_MODE)).cacheMode ≠ some CACHE_ONLY_MODE
    ∧ ((exBackend (some DEFAULT_MODE)).NodeAdded 5).1
        = ((exBackend (some DEFAULT_MODE)).persistent.impl.NodeAdded 5
            (exBackend (some DEFAULT_MODE)).persistent.state).1 :=
  ⟨by decide, (write_result_source (exBackend (some DEFAULT_MODE)) 5 6 (by decide)).1.1⟩

/-- C3 (failing input): in `DEFAULT_MODE`, with a persistent backend whose
`MetadataUpdated` returns true and a memory backend whose `MetadataUpdated`
returns false, `CachedBackend.MetadataUpdated` returns false: the memory
result, not the persistent one. -/
theorem metadata_updated_returns_memory_result :
    ((exBackend (some DEFAULT_MODE)).persistent.impl.MetadataUpdated 3
        (exBackend (some DEFAULT_MODE)).persistent.state).1 = true
    ∧ ((exBackend (some DEFAULT_MODE)).memory.impl.MetadataUpdated 3
        (exBackend (some DEFAULT_MODE)).memory.state).1 = false
    ∧ ((exBackend (some DEFAULT_MODE)).MetadataUpdated 3).1 = false := by
  decide

/-- C4: for `MetadataUpdated`, whatever the backends are and return, the
invocations added to the history are exactly `[persistent, memory]` in
`DEFAULT_MODE`, `[memory]` in `CACHE_ONLY_MODE` and `[persistent]` in
`PERSISTENT_ONLY_MODE`; the `DEFAULT_MODE` sequence is the reverse of the
one `NodeAdded`, `NodeDeleted`, `EdgeAdded` and `EdgeDeleted` produce, target
by target. -/
theorem metadata_updated_invocation_sequence (c : CachedBackend T M P) (i : T.Any)
    (n : T.Node) (e : T.Edge) :
    ((c.SetMode DEFAULT_MODE).MetadataUpdated i).2.calls
        = c.calls ++ [(Target.persistent, Call.MetadataUpdated i),
                      (Target.memory, Call.MetadataUpdated i)]
    ∧ ((c.SetMode CACHE_ONLY_MODE).MetadataUpdated i).2.calls
        = c.calls ++ [(Target.memory, Call.MetadataUpdated i)]
    ∧ ((c.SetMode PERSISTENT_ONLY_MODE).MetadataUpdated i).2.calls
        = c.calls ++ [(Target.persistent, Call.MetadataUpdated i)]
    ∧ ((((c.SetMode DEFAULT_MODE).MetadataUpdated i).2.calls.drop c.calls.length).map Prod.fst
        = [Target.persistent, Target.memory]
      ∧ ((((c.SetMode DEFAULT_MODE).NodeAdded n).2.calls.drop c.calls.length).map Prod.fst).reverse
        = [Target.persistent, Target.memory]
      ∧ ((((c.SetMode DEFAULT_MODE).NodeDeleted n).2.calls.drop c.calls.length).map
          Prod.fst).reverse = [Target.persistent, Target.memory]
      ∧ ((((c.SetMode DEFAULT_MODE).EdgeAdded e).2.calls.drop c.calls.length).map Prod.fst).reverse
        = [Target.persistent, Target.memory]
      ∧ ((((c.SetMode DEFAULT_MODE).EdgeDeleted e).2.calls.drop c.calls.length).map
          Prod.fst).reverse = [Target.persistent, Target.memory]) := by
  refine ⟨?_, rfl, rfl, ?_, ?_, ?_, ?_, ?_⟩ <;>
  simp [MetadataUpdated, NodeAdded, NodeDeleted, EdgeAdded, EdgeDeleted, SetMode, onMemory,
    onPersistent, DEFAULT_MODE, CACHE_ONLY_MODE, PERSISTENT_ONLY_MODE]

end WriteRouting


/-! ## Read routing of `CachedBackend` -/

section ReadRouting

variable {T : Types} {M P : Type}

open CachedBackend

/-- C5 (counterexample): in `CACHE_ONLY_MODE` a read with a time slice is not
answered by the persistent store: the persistent backend of `exBackend`
holds node 7, and `GetNode` with the slice `[1, 1]` returns the nil slice
instead of its answer, without calling it. -/
theorem timed_read_cache_only_not_persistent :
    ((exBackend (some CACHE_ONLY_MODE)).GetNode "aaa" (some (NewTimeSlice 1 1))).1
      ≠ ((exBackend (some CACHE_ONLY_MODE)).persistent.impl.GetNode "aaa"
          (some (NewTimeSlice 1 1)) (exBackend (some CACHE_ONLY_MODE)).persistent.state).1
    ∧ ((exBackend (some CACHE_ONLY_MODE)).GetNode "aaa" (some (NewTimeSlice 1 1))).2.calls
      = [] := by
  constructor
  · decide
  · rfl

/-- C5 (amended): for every mode other than `CACHE_ONLY_MODE` (a mode never
set included) and every non-nil time slice, each of the six read operations
returns what the persistent backend's same-named method returns for the same
arguments, and that call is the only backend invocation. -/
theorem timed_read_routed_to_persistent (c : CachedBackend T M P) (ts : TimeSlice)
    (i : Identifier) (m pm cm : T.Metadata) (n : T.Node) (e : T.Edge)
    (h : c.cacheMode ≠ some CACHE_ONLY_MODE) :
    ((c.GetNode i (some ts)).1 = (c.persistent.impl.GetNode i (some ts) c.persistent.state).1
      ∧ (c.GetNode i (some ts)).2.calls = c.calls ++ [(Target.persistent, Call.GetNode i (some ts))])
    ∧ ((c.GetEdge i (some ts)).1 = (c.persistent.impl.GetEdge i (some ts) c.persistent.state).1
      ∧ (c.GetEdge i (some ts)).2.calls = c.calls ++ [(Target.persistent, Call.GetEdge i (some ts))])
    ∧ ((c.GetNodes (some ts) m).1 = (c.persistent.impl.GetNodes (some ts) m c.persistent.state).1
      ∧ (c.GetNodes (some ts) m).2.calls = c.calls ++ [(Target.persistent, Call.GetNodes (some ts) m)])
    ∧ ((c.GetEdges (some ts) m).1 = (c.persistent.impl.GetEdges (some ts) m c.persistent.state).1
      ∧ (c.GetEdges (some ts) m).2.calls = c.calls ++ [(Target.persistent, Call.GetEdges (some ts) m)])
    ∧ ((c.GetNodeEdges n (some ts) m).1 = (c.persistent.impl.GetNodeEdges n (some ts) m c.persistent.state).1
      ∧ (c.GetNodeEdges n (some ts) m).2.calls = c.calls ++ [(Target.persistent, Call.GetNodeEdges n (some ts) m)])
    ∧ ((c.GetEdgeNodes e (some ts) pm cm).1 = (c.persistent.impl.GetEdgeNodes e (some ts) pm cm c.persistent.state).1
      ∧ (c.GetEdgeNodes e (some ts) pm cm).2.calls = c.calls ++ [(Target.persistent, Call.GetEdgeNodes e (some ts) pm cm)]) := by
  simp [GetNode, GetEdge, GetNodes, GetEdges, GetNodeEdges, GetEdgeNodes, h, onPersistent]

/-- Witness of the amended C5 in `DEFAULT_MODE`: `GetNode` with the slice
`[1, 1]` returns the persistent backend's answer. -/
theorem timed_read_routed_to_persistent_witness :
    (exBackend (some DEFAULT_MODE)).cacheMode ≠ some CACHE_ONLY_MODE
    ∧ ((exBackend (some DEFAULT_MODE)).GetNode "aaa" (some (NewTimeSlice 1 1))).1
      = ((exBackend (some DEFAULT_MODE)).persistent.impl.GetNode "aaa"
          (some (NewTimeSlice 1 1)) (exBackend (some DEFAULT_MODE)).persistent.state).1 :=
  ⟨by decide,
    (timed_read_routed_to_persistent (exBackend (some DEFAULT_MODE)) (NewTimeSlice 1 1) "aaa"
      () () () 1 2 (by decide)).1.1⟩

/-- C6: in `CACHE_ONLY_MODE`, for every non-nil time slice and whatever the two
backends hold, each read operation returns an empty result and leaves the
`CachedBackend` exactly as it was (no backend state changed, no invocation
recorded): `GetNode`, `GetEdge` and `GetNodeEdges` return the nil slice, of
length 0, `GetEdgeNodes` returns two nil slices, of length 0, and `GetNodes`
and `GetEdges` return the empty non-nil slice. -/
theorem timed_read_cache_only_empty (c : CachedBackend T M P) (ts : TimeSlice)
    (i : Identifier) (m pm cm : T.Metadata) (n : T.Node) (e : T.Edge) :
    (((c.SetMode CACHE_ONLY_MODE).GetNode i (some ts)).1 = Slice.nil
      ∧ ((c.SetMode CACHE_ONLY_MODE).GetNode i (some ts)).1.len = 0
      ∧ ((c.SetMode CACHE_ONLY_MODE).GetNode i (some ts)).2 = c.SetMode CACHE_ONLY_MODE)
    ∧ (((c.SetMode CACHE_ONLY_MODE).GetEdge i (some ts)).1 = Slice.nil
      ∧ ((c.SetMode CACHE_ONLY_MODE).GetEdge i (some ts)).1.len = 0
      ∧ ((c.SetMode CACHE_ONLY_MODE).GetEdge i (some ts)).2 = c.SetMode CACHE_ONLY_MODE)
    ∧ (((c.SetMode CACHE_ONLY_MODE).GetNodeEdges n (some ts) m).1 = Slice.nil
      ∧ ((c.SetMode CACHE_ONLY_MODE).GetNodeEdges n (some ts) m).1.len = 0
      ∧ ((c.SetMode CACHE_ONLY_MODE).GetNodeEdges n (some ts) m).2 = c.SetMode CACHE_ONLY_MODE)
    ∧ (((c.SetMode CACHE_ONLY_MODE).GetEdgeNodes e (some ts) pm cm).1 = (Slice.nil, Slice.nil)
      ∧ ((c.SetMode CACHE_ONLY_MODE).GetEdgeNodes e (some ts) pm cm).1.1.len = 0
      ∧ ((c.SetMode CACHE_ONLY_MODE).GetEdgeNodes e (some ts) pm cm).1.2.len = 0
      ∧ ((c.SetMode CACHE_ONLY_MODE).GetEdgeNodes e (some ts) pm cm).2
          = c.SetMode CACHE_ONLY_MODE)
    ∧ (((c.SetMode CACHE_ONLY_MODE).GetNodes (some ts) m).1 = Slice.ofList []
      ∧ ((c.SetMode CACHE_ONLY_MODE).GetNodes (some ts) m).1.len = 0
      ∧ ((c.SetMode CACHE_ONLY_MODE).GetNodes (some ts) m).2 = c.SetMode CACHE_ONLY_MODE)
    ∧ (((c.SetMode CACHE_ONLY_MODE).GetEdges (some ts) m).1 = Slice.ofList []
      ∧ ((c.SetMode CACHE_ONLY_MODE).GetEdges (some ts) m).1.len = 0
      ∧ ((c.SetMode CACHE_ONLY_MODE).GetEdges (some ts) m).2 = c.SetMode CACHE_ONLY_MODE) :=
  ⟨⟨rfl, rfl, rfl⟩, ⟨rfl, rfl, rfl⟩, ⟨rfl, rfl, rfl⟩, ⟨rfl, rfl, rfl, rfl⟩, ⟨rfl, rfl, rfl⟩,
    ⟨rfl, rfl, rfl⟩⟩

/-- C7: for the six read operations called without a time scope (`t` nil).
In `PERSISTENT_ONLY_MODE` the result is the persistent backend's, the only
invocation recorded is that persistent call, the memory backend is left
untouched, and the result is the same whichever memory backend (methods and
content) is plugged in.  In `CACHE_ONLY_MODE` and in `DEFAULT_MODE` the
result is the memory backend's, whatever it is (an empty answer included),
the only invocation recorded is that memory call, and the persistent backend
is left untouched. -/
theorem untimed_read_routing (c : CachedBackend T M P)
    (i : Identifier) (m pm cm : T.Metadata) (n : T.Node) (e : T.Edge) :
    ((((c.SetMode PERSISTENT_ONLY_MODE).GetNode i none).1 = (c.persistent.impl.GetNode i none c.persistent.state).1
        ∧ ((c.SetMode PERSISTENT_ONLY_MODE).GetNode i none).2.calls = c.calls ++ [(Target.persistent, Call.GetNode i none)])
      ∧ (((c.SetMode PERSISTENT_ONLY_MODE).GetEdge i none).1 = (c.persistent.impl.GetEdge i none c.persistent.state).1
        ∧ ((c.SetMode PERSISTENT_ONLY_MODE).GetEdge i none).2.calls = c.calls ++ [(Target.persistent, Call.GetEdge i none)])
      ∧ (((c.SetMode PERSISTENT_ONLY_MODE).GetNodes none m).1 = (c.persistent.impl.GetNodes none m c.persistent.state).1
        ∧ ((c.SetMode PERSISTENT_ONLY_MODE).GetNodes none m).2.calls = c.calls ++ [(Target.persistent, Call.GetNodes none m)])
      ∧ (((c.SetMode PERSISTENT_ONLY_MODE).GetEdges none m).1 = (c.persistent.impl.GetEdges none m c.persistent.state).1
        ∧ ((c.SetMode PERSISTENT_ONLY_MODE).GetEdges none m).2.calls = c.calls ++ [(Target.persistent, Call.GetEdges none m)])
      ∧ (((c.SetMode PERSISTENT_ONLY_MODE).GetNodeEdges n none m).1 = (c.persistent.impl.GetNodeEdges n none m c.persistent.state).1
        ∧ ((c.SetMode PERSISTENT_ONLY_MODE).GetNodeEdges n none m).2.calls = c.calls ++ [(Target.persistent, Call.GetNodeEdges n none m)])
      ∧ (((c.SetMode PERSISTENT_ONLY_MODE).GetEdgeNodes e none pm cm).1 = (c.persistent.impl.GetEdgeNodes e none pm cm c.persistent.state).1
        ∧ ((c.SetMode PERSISTENT_ONLY_MODE).GetEdgeNodes e none pm cm).2.calls = c.calls ++ [(Target.persistent, Call.GetEdgeNodes e none pm cm)]))
    ∧ (((c.SetMode PERSISTENT_ONLY_MODE).GetNode i none).2.memory = c.memory
      ∧ ((c.SetMode PERSISTENT_ONLY_MODE).GetEdge i none).2.memory = c.memory
      ∧ ((c.SetMode PERSISTENT_ONLY_MODE).GetNodes none m).2.memory = c.memory
      ∧ ((c.SetMode PERSISTENT_ONLY_MODE).GetEdges none m).2.memory = c.memory
      ∧ ((c.SetMode PERSISTENT_ONLY_MODE).GetNodeEdges n none m).2.memory = c.memory
      ∧ ((c.SetMode PERSISTENT_ONLY_MODE).GetEdgeNodes e none pm cm).2.memory = c.memory)
    ∧ (∀ (M2 : Type) (memory2 : Instance T M2),
        (((c.withMemory memory2).SetMode PERSISTENT_ONLY_MODE).GetNode i none).1
            = ((c.SetMode PERSISTENT_ONLY_MODE).GetNode i none).1
        ∧ (((c.withMemory memory2).SetMode PERSISTENT_ONLY_MODE).GetEdge i none).1
            = ((c.SetMode PERSISTENT_ONLY_MODE).GetEdge i none).1
        ∧ (((c.withMemory memory2).SetMode PERSISTENT_ONLY_MODE).GetNodes none m).1
            = ((c.SetMode PERSISTENT_ONLY_MODE).GetNodes none m).1
        ∧ (((c.withMemory memory2).SetMode PERSISTENT_ONLY_MODE).GetEdges none m).1
            = ((c.SetMode PERSISTENT_ONLY_MODE).GetEdges none m).1
        ∧ (((c.withMemory memory2).SetMode PERSISTENT_ONLY_MODE).GetNodeEdges n none m).1
            = ((c.SetMode PERSISTENT_ONLY_MODE).GetNodeEdges n none m).1
        ∧ (((c.withMemory memory2).SetMode PERSISTENT_ONLY_MODE).GetEdgeNodes e none pm cm).1
            = ((c.SetMode PERSISTENT_ONLY_MODE).GetEdgeNodes e none pm cm).1)
    ∧ ((((c.SetMode CACHE_ONLY_MODE).GetNode i none).1 = (c.memory.impl.GetNode i none c.memory.state).1
        ∧ ((c.SetMode CACHE_ONLY_MODE).GetNode i none).2.calls = c.calls ++ [(Target.memory, Call.GetNode i none)])
      ∧ (((c.SetMode CACHE_ONLY_MODE).GetEdge i none).1 = (c.memory.impl.GetEdge i none c.memory.state).1
        ∧ ((c.SetMode CACHE_ONLY_MODE).GetEdge i none).2.calls = c.calls ++ [(Target.memory, Call.GetEdge i none)])
      ∧ (((c.SetMode CACHE_ONLY_MODE).GetNodes none m).1 = (c.memory.impl.GetNodes none m c.memory.state).1
        ∧ ((c.SetMode CACHE_ONLY_MODE).GetNodes none m).2.calls = c.calls ++ [(Target.memory, Call.GetNodes none m)])
      ∧ (((c.SetMode CACHE_ONLY_MODE).GetEdges none m).1 = (c.memory.impl.GetEdges none m c.memory.state).1
        ∧ ((c.SetMode CACHE_ONLY_MODE).GetEdges none m).2.calls = c.calls ++ [(Target.memory, Call.GetEdges none m)])
      ∧ (((c.SetMode CACHE_ONLY_MODE).GetNodeEdges n none m).1 = (c.memory.impl.GetNodeEdges n none m c.memory.state).1
        ∧ ((c.SetMode CACHE_ONLY_MODE).GetNodeEdges n none m).2.calls = c.calls ++ [(Target.memory, Call.GetNodeEdges n none m)])
      ∧ (((c.SetMode CACHE_ONLY_MODE).GetEdgeNodes e none pm cm).1 = (c.memory.impl.GetEdgeNodes e none pm cm c.memory.state).1
        ∧ ((c.SetMode CACHE_ONLY_MODE).GetEdgeNodes e none pm cm).2.calls = c.calls ++ [(Target.memory, Call.GetEdgeNodes e none pm cm)]))
    ∧ (((c.SetMode CACHE_ONLY_MODE).GetNode i none).2.persistent = c.persistent
      ∧ ((c.SetMode CACHE_ONLY_MODE).GetEdge i none).2.persistent = c.persistent
      ∧ ((c.SetMode CACHE_ONLY_MODE).GetNodes none m).2.persistent = c.persistent
      ∧ ((c.SetMode CACHE_ONLY_MODE).GetEdges none m).2.persistent = c.persistent
      ∧ ((c.SetMode CACHE_ONLY_MODE).GetNodeEdges n none m).2.persistent = c.persistent
      ∧ ((c.SetMode CACHE_ONLY_MODE).GetEdgeNodes e none pm cm).2.persistent = c.persistent)
    ∧ ((((c.SetMode DEFAULT_MODE).GetNode i none).1 = (c.memory.impl.GetNode i none c.memory.state).1
        ∧ ((c.SetMode DEFAULT_MODE).GetNode i none).2.calls = c.calls ++ [(Target.memory, Call.GetNode i none)])
      ∧ (((c.SetMode DEFAULT_MODE).GetEdge i none).1 = (c.memory.impl.GetEdge i none c.memory.state).1
        ∧ ((c.SetMode DEFAULT_MODE).GetEdge i none).2.calls = c.calls ++ [(Target.memory, Call.GetEdge i none)])
      ∧ (((c.SetMode DEFAULT_MODE).GetNodes none m).1 = (c.memory.impl.GetNodes none m c.memory.state).1
        ∧ ((c.SetMode DEFAULT_MODE).GetNodes none m).2.calls = c.calls ++ [(Target.memory, Call.GetNodes none m)])
      ∧ (((c.SetMode DEFAULT_MODE).GetEdges none m).1 = (c.memory.impl.GetEdges none m c.memory.state).1
        ∧ ((c.SetMode DEFAULT_MODE).GetEdges none m).2.calls = c.calls ++ [(Target.memory, Call.GetEdges none m)])
      ∧ (((c.SetMode DEFAULT_MODE).GetNodeEdges n none m).1 = (c.memory.impl.GetNodeEdges n none m c.memory.state).1
        ∧ ((c.SetMode DEFAULT_MODE).GetNodeEdges n none m).2.calls = c.calls ++ [(Target.memory, Call.GetNodeEdges n none m)])
      ∧ (((c.SetMode DEFAULT_MODE).GetEdgeNodes e none pm cm).1 = (c.memory.impl.GetEdgeNodes e none pm cm c.memory.state).1
        ∧ ((c.SetMode DEFAULT_MODE).GetEdgeNodes e none pm cm).2.calls = c.calls ++ [(Target.memory, Call.GetEdgeNodes e none pm cm)]))
    ∧ (((c.SetMode DEFAULT_MODE).GetNode i none).2.persistent = c.persistent
      ∧ ((c.SetMode DEFAULT_MODE).GetEdge i none).2.persistent = c.persistent
      ∧ ((c.SetMode DEFAULT_MODE).GetNodes none m).2.persistent = c.persistent
      ∧ ((c.SetMode DEFAULT_MODE).GetEdges none m).2.persistent = c.persistent
      ∧ ((c.SetMode DEFAULT_MODE).GetNodeEdges n none m).2.persistent = c.persistent
      ∧ ((c.SetMode DEFAULT_MODE).GetEdgeNodes e none pm cm).2.persistent = c.persistent) := by
  refine ⟨?_, ?_, ?_, ?_, ?_, ?_, ?_⟩
  · exact ⟨⟨rfl, rfl⟩, ⟨rfl, rfl⟩, ⟨rfl, rfl⟩, ⟨rfl, rfl⟩, ⟨rfl, rfl⟩, ⟨rfl, rfl⟩⟩
  · exact ⟨rfl, rfl, rfl, rfl, rfl, rfl⟩
  · intro M2 memory2
    exact ⟨rfl, rfl, rfl, rfl, rfl, rfl⟩
  · exact ⟨⟨rfl, rfl⟩, ⟨rfl, rfl⟩, ⟨rfl, rfl⟩, ⟨rfl, rfl⟩, ⟨rfl, rfl⟩, ⟨rfl, rfl⟩⟩
  · exact ⟨rfl, rfl, rfl, rfl, rfl, rfl⟩
  · simp [GetNode, GetEdge, GetNodes, GetEdges, GetNodeEdges, GetEdgeNodes, SetMode, onMemory,
    onPersistent, DEFAULT_MODE, CACHE_ONLY_MODE, PERSISTENT_ONLY_MODE]
  · simp [GetNode, GetEdge, GetNodes, GetEdges, GetNodeEdges, GetEdgeNodes, SetMode, onMemory,
    onPersistent, DEFAULT_MODE, CACHE_ONLY_MODE, PERSISTENT_ONLY_MODE]

/-- C8 (counterexample): in `CACHE_ONLY_MODE`, `WithContext` invokes the
persistent backend: on `exBackend`, whose history is empty, the call adds a
persistent `WithContext` invocation and the persistent backend's call
counter goes from 0 to 1. -/
theorem with_context_cache_only_calls_persistent :
    (exBackend (some CACHE_ONLY_MODE)).persistentCalls = []
    ∧ ((exBackend (some CACHE_ONLY_MODE)).WithContext 1 ()).2.persistentCalls
        = [Call.WithContext 1 ()]
    ∧ (exBackend (some CACHE_ONLY_MODE)).persistent.state = 0
    ∧ ((exBackend (some CACHE_ONLY_MODE)).WithContext 1 ()).2.persistent.state = 1 :=
  ⟨rfl, rfl, rfl, rfl⟩

/-- C8 (amended): in `CACHE_ONLY_MODE` none of the five mutating calls and none
of the six read operations (with or without a time slice) invokes the
persistent backend, for every argument: the persistent part of the history
and the persistent backend itself are unchanged.  `WithContext` is outside
the mode switch: in every mode it makes exactly one invocation, of the
persistent backend's `WithContext`, and returns its result. -/
theorem cache_only_skips_persistent (c : CachedBackend T M P) (t : Option TimeSlice)
    (i : Identifier) (m pm cm : T.Metadata) (n : T.Node) (e : T.Edge) (a : T.Any)
    (g : T.Graph) (ctx : T.GraphContext) :
    (((c.SetMode CACHE_ONLY_MODE).NodeAdded n).2.persistentCalls = c.persistentCalls
      ∧ ((c.SetMode CACHE_ONLY_MODE).NodeAdded n).2.persistent = c.persistent)
    ∧ (((c.SetMode CACHE_ONLY_MODE).NodeDeleted n).2.persistentCalls = c.persistentCalls
      ∧ ((c.SetMode CACHE_ONLY_MODE).NodeDeleted n).2.persistent = c.persistent)
    ∧ (((c.SetMode CACHE_ONLY_MODE).EdgeAdded e).2.persistentCalls = c.persistentCalls
      ∧ ((c.SetMode CACHE_ONLY_MODE).EdgeAdded e).2.persistent = c.persistent)
    ∧ (((c.SetMode CACHE_ONLY_MODE).EdgeDeleted e).2.persistentCalls = c.persistentCalls
      ∧ ((c.SetMode CACHE_ONLY_MODE).EdgeDeleted e).2.persistent = c.persistent)
    ∧ (((c.SetMode CACHE_ONLY_MODE).MetadataUpdated a).2.persistentCalls = c.persistentCalls
      ∧ ((c.SetMode CACHE_ONLY_MODE).MetadataUpdated a).2.persistent = c.persistent)
    ∧ (((c.SetMode CACHE_ONLY_MODE).GetNode i t).2.persistentCalls = c.persistentCalls
      ∧ ((c.SetMode CACHE_ONLY_MODE).GetNode i t).2.persistent = c.persistent)
    ∧ (((c.SetMode CACHE_ONLY_MODE).GetEdge i t).2.persistentCalls = c.persistentCalls
      ∧ ((c.SetMode CACHE_ONLY_MODE).GetEdge i t).2.persistent = c.persistent)
    ∧ (((c.SetMode CACHE_ONLY_MODE).GetNodes t m).2.persistentCalls = c.persistentCalls
      ∧ ((c.SetMode CACHE_ONLY_MODE).GetNodes t m).2.persistent = c.persistent)
    ∧ (((c.SetMode CACHE_ONLY_MODE).GetEdges t m).2.persistentCalls = c.persistentCalls
      ∧ ((c.SetMode CACHE_ONLY_MODE).GetEdges t m).2.persistent = c.persistent)
    ∧ (((c.SetMode CACHE_ONLY_MODE).GetNodeEdges n t m).2.persistentCalls = c.persistentCalls
      ∧ ((c.SetMode CACHE_ONLY_MODE).GetNodeEdges n t m).2.persistent = c.persistent)
    ∧ (((c.SetMode CACHE_ONLY_MODE).GetEdgeNodes e t pm cm).2.persistentCalls = c.persistentCalls
      ∧ ((c.SetMode CACHE_ONLY_MODE).GetEdgeNodes e t pm cm).2.persistent = c.persistent)
    ∧ ((c.WithContext g ctx).2.calls = c.calls ++ [(Target.persistent, Call.WithContext g ctx)]
      ∧ (c.WithContext g ctx).1 = (c.persistent.impl.WithContext g ctx c.persistent.state).1) := by
  cases t <;>
  simp [NodeAdded, NodeDeleted, EdgeAdded, EdgeDeleted, MetadataUpdated, WithContext,
    GetNode, GetEdge, GetNodes, GetEdges, GetNodeEdges, GetEdgeNodes, SetMode, onMemory,
    onPersistent, persistentCalls, CACHE_ONLY_MODE, PERSISTENT_ONLY_MODE]

end ReadRouting


/-! ## Decoding of sync messages -/

section Codec

variable {Node Edge : Type}

/-- Members of an object none of which selects `Time` or `GremlinFilter` leave
the decoder state of `raw` as it is. -/
theorem unmarshalRawMembers_skip (members : List (String × JSON))
    (st : RawSyncRequest × Option Error)
    (h : ∀ kv ∈ members,
      fieldMatches "Time" kv.1 = false ∧ fieldMatches "GremlinFilter" kv.1 = false) :
    unmarshalRawMembers members st = st := by
  induction members generalizing st with
  | nil => simp [unmarshalRawMembers]
  | cons kv rest ih =>
    obtain ⟨key, v⟩ := kv
    obtain ⟨raw, saved⟩ := st
    have hk := h (key, v) (List.mem_cons_self _ _)
    simp only [unmarshalRawMembers, hk.1, hk.2, Bool.false_eq_true, if_false]
    exact ih _ (fun kv hkv => h kv (List.mem_cons_of_mem _ hkv))

/-- Members of an object none of which selects `Nodes` or `Edges` leave the
decoder state of a `SyncMsg` as it is, and no entity decoder is reached. -/
theorem unmarshalSyncMembers_skip (decodeNode : JSON → Except Error Node)
    (decodeEdge : JSON → Except Error Edge) (members : List (String × JSON))
    (st : SyncMsg Node Edge × Option Error)
    (h : ∀ kv ∈ members,
      fieldMatches "Nodes" kv.1 = false ∧ fieldMatches "Edges" kv.1 = false) :
    unmarshalSyncMembers decodeNode decodeEdge members st = Except.ok st := by
  induction members generalizing st with
  | nil => simp [unmarshalSyncMembers]
  | cons kv rest ih =>
    obtain ⟨key, v⟩ := kv
    obtain ⟨m, saved⟩ := st
    have hk := h (key, v) (List.mem_cons_self _ _)
    simp only [unmarshalSyncMembers, hk.1, hk.2, Bool.false_eq_true, if_false]
    exact ih _ (fun kv hkv => h kv (List.mem_cons_of_mem _ hkv))

/-- C9: for every envelope whose type tag is none of the ten known tags,
whatever its payload (bytes that are not JSON included) and whatever the
entity decoders do, `UnmarshalMessage` returns the envelope itself as its
value and a nil error (with the empty string as tag): the payload decoders
have no part in the result. -/
theorem unknown_type_passes_through (decodeNode : JSON → Except Error Node)
    (decodeEdge : JSON → Except Error Edge) (msg : StructMessage)
    (h : msg.MsgType ∉ knownMsgTypes) :
    UnmarshalMessage decodeNode decodeEdge msg = ("", Message.envelope msg, none) := by
  simp only [knownMsgTypes, List.mem_cons, List.mem_singleton, List.not_mem_nil, or_false,
    not_or] at h
  obtain ⟨h1, h2, h3, h4, h5, h6, h7, h8, h9, h10⟩ := h
  simp [UnmarshalMessage, h1, h2, h3, h4, h5, h6, h7, h8, h9, h10]

/-- Witness of C9: an envelope tagged `Unknown` whose payload is not even JSON
comes back unchanged, with a nil error. -/
theorem unknown_type_passes_through_witness :
    ("Unknown" : String) ∉ knownMsgTypes
    ∧ UnmarshalMessage rejectAll rejectAll
        { MsgType := "Unknown", Obj := RawMessage.malformed "<html>" }
      = ("", Message.envelope { MsgType := "Unknown", Obj := RawMessage.malformed "<html>" }, none) :=
  ⟨by decide,
    unknown_type_passes_through rejectAll rejectAll
      { MsgType := "Unknown", Obj := RawMessage.malformed "<html>" } (by decide)⟩

/-- C10 (counterexample): with the empty JSON object `{}` as payload, an
envelope tagged `SyncRequest` and an envelope tagged `Sync` both decode with
a nil error; neither `ErrSyncRequestMalFormed` nor `ErrSyncMsgMalFormed` is
returned. -/
theorem empty_object_decodes_without_error :
    (UnmarshalMessage rejectAll rejectAll
        { MsgType := SyncRequestMsgType, Obj := RawMessage.wellFormed (JSON.obj []) }).2.2 = none
    ∧ (UnmarshalMessage rejectAll rejectAll
        { MsgType := SyncRequestMsgType, Obj := RawMessage.wellFormed (JSON.obj []) }).2.2
      ≠ some Error.ErrSyncRequestMalFormed
    ∧ (UnmarshalMessage rejectAll rejectAll
        { MsgType := SyncMsgType, Obj := RawMessage.wellFormed (JSON.obj []) }).2.2 = none
    ∧ (UnmarshalMessage rejectAll rejectAll
        { MsgType := SyncMsgType, Obj := RawMessage.wellFormed (JSON.obj []) }).2.2
      ≠ some Error.ErrSyncMsgMalFormed := by
  decide

/-- C10 (amended): absent fields are not an error.  For an envelope tagged
`SyncRequest` whose payload is a JSON object with no member for `Time` or
`GremlinFilter`, `UnmarshalMessage` returns the tag `SyncRequest`, a message
with a nil `TimeSlice` and an empty `GremlinFilter`, and a nil error; for an
envelope tagged `Sync` or `SyncReply` whose payload is a JSON object with no
member for `Nodes` or `Edges` it returns the envelope's tag, a `SyncMsg` with
nil `Nodes` and nil `Edges`, and a nil error. -/
theorem absent_fields_decode_to_zero_values (decodeNode : JSON → Except Error Node)
    (decodeEdge : JSON → Except Error Edge) (reqMembers syncMembers : List (String × JSON))
    (hreq : ∀ kv ∈ reqMembers,
      fieldMatches "Time" kv.1 = false ∧ fieldMatches "GremlinFilter" kv.1 = false)
    (hsync : ∀ kv ∈ syncMembers,
      fieldMatches "Nodes" kv.1 = false ∧ fieldMatches "Edges" kv.1 = false) :
    UnmarshalMessage decodeNode decodeEdge
        { MsgType := SyncRequestMsgType, Obj := RawMessage.wellFormed (JSON.obj reqMembers) }
      = (SyncRequestMsgType,
          Message.syncRequest { TimeSlice := none, GremlinFilter := "" }, none)
    ∧ UnmarshalMessage decodeNode decodeEdge
        { MsgType := SyncMsgType, Obj := RawMessage.wellFormed (JSON.obj syncMembers) }
      = (SyncMsgType, Message.sync { Nodes := Slice.nil, Edges := Slice.nil }, none)
    ∧ UnmarshalMessage decodeNode decodeEdge
        { MsgType := SyncReplyMsgType, Obj := RawMessage.wellFormed (JSON.obj syncMembers) }
      = (SyncReplyMsgType, Message.sync { Nodes := Slice.nil, Edges := Slice.nil }, none) := by
  refine ⟨?_, ?_, ?_⟩
  · simp [UnmarshalMessage, SyncRequestMsg.UnmarshalJSON, unmarshalRaw,
      unmarshalRawMembers_skip reqMembers _ hreq]
  · have hne : SyncMsgType ≠ SyncRequestMsgType := by decide
    simp [UnmarshalMessage, hne, unmarshalSyncMsg,
      unmarshalSyncMembers_skip decodeNode decodeEdge syncMembers _ hsync]
  · have hne : SyncReplyMsgType ≠ SyncRequestMsgType := by decide
    simp [UnmarshalMessage, hne, unmarshalSyncMsg,
      unmarshalSyncMembers_skip decodeNode decodeEdge syncMembers _ hsync]

/-- Witness of the amended C10: objects carrying only a `Host` member. -/
theorem absent_fields_decode_to_zero_values_witness :
    (∀ kv ∈ [("Host", JSON.str "host1")],
      fieldMatches "Time" kv.1 = false ∧ fieldMatches "GremlinFilter" kv.1 = false)
    ∧ (∀ kv ∈ [("Host", JSON.str "host1")],
      fieldMatches "Nodes" kv.1 = false ∧ fieldMatches "Edges" kv.1 = false)
    ∧ UnmarshalMessage rejectAll rejectAll
        { MsgType := SyncRequestMsgType,
          Obj := RawMessage.wellFormed (JSON.obj [("Host", JSON.str "host1")]) }
      = (SyncRequestMsgType,
          Message.syncRequest { TimeSlice := none, GremlinFilter := "" }, none) :=
  ⟨by decide, by decide,
    (absent_fields_decode_to_zero_values rejectAll rejectAll [("Host", JSON.str "host1")]
      [("Host", JSON.str "host1")] (by decide) (by decide)).1⟩

end Codec


/-! ## Legacy time field and round trip of `SyncRequest` -/

section SyncRequest

variable {Node Edge : Type}

/-- C11: `SyncRequestMsg.UnmarshalJSON` on a payload whose `Time` field is the
non-zero `int64` value `T` and whose filter is `F` gives a `TimeSlice` with
start and end both `T` and `GremlinFilter = F`; on a payload whose `Time`
field is absent or 0 it leaves `TimeSlice` as it was, which is nil for the
fresh message `UnmarshalMessage` decodes into, and gives `GremlinFilter = F`.
Stated both for whatever payload the JSON decoder reads as `Time = T`,
`GremlinFilter = F`, and for the payloads written out with these members. -/
theorem legacy_time_normalized (decodeNode : JSON → Except Error Node)
    (decodeEdge : JSON → Except Error Edge) (s : SyncRequestMsg) (T : Int) (F : String)
    (hT : T ≠ 0) (hrange : -(2 : Int) ^ 63 ≤ T ∧ T < (2 : Int) ^ 63) :
    (∀ b : RawMessage, unmarshalRaw b = Except.ok { Time := T, GremlinFilter := F } →
        s.UnmarshalJSON b
          = (none, { TimeSlice := some { Start := T, Last := T }, GremlinFilter := F }))
    ∧ (∀ b : RawMessage, unmarshalRaw b = Except.ok { Time := 0, GremlinFilter := F } →
        s.UnmarshalJSON b = (none, { TimeSlice := s.TimeSlice, GremlinFilter := F }))
    ∧ s.UnmarshalJSON
          (RawMessage.wellFormed (JSON.obj [("Time", JSON.int T), ("GremlinFilter", JSON.str F)]))
        = (none, { TimeSlice := some { Start := T, Last := T }, GremlinFilter := F })
    ∧ s.UnmarshalJSON (RawMessage.wellFormed (JSON.obj [("GremlinFilter", JSON.str F)]))
        = (none, { TimeSlice := s.TimeSlice, GremlinFilter := F })
    ∧ s.UnmarshalJSON
          (RawMessage.wellFormed (JSON.obj [("Time", JSON.int 0), ("GremlinFilter", JSON.str F)]))
        = (none, { TimeSlice := s.TimeSlice, GremlinFilter := F })
    ∧ UnmarshalMessage decodeNode decodeEdge
          { MsgType := SyncRequestMsgType,
            Obj := RawMessage.wellFormed
              (JSON.obj [("Time", JSON.int T), ("GremlinFilter", JSON.str F)]) }
        = (SyncRequestMsgType,
            Message.syncRequest { TimeSlice := some { Start := T, Last := T }, GremlinFilter := F },
            none)
    ∧ UnmarshalMessage decodeNode decodeEdge
          { MsgType := SyncRequestMsgType,
            Obj := RawMessage.wellFormed (JSON.obj [("GremlinFilter", JSON.str F)]) }
        = (SyncRequestMsgType, Message.syncRequest { TimeSlice := none, GremlinFilter := F }, none)
    ∧ UnmarshalMessage decodeNode decodeEdge
          { MsgType := SyncRequestMsgType,
            Obj := RawMessage.wellFormed
              (JSON.obj [("Time", JSON.int 0), ("GremlinFilter", JSON.str F)]) }
        = (SyncRequestMsgType, Message.syncRequest { TimeSlice := none, GremlinFilter := F },
            none) := by
  have h1 : fieldMatches "Time" "Time" = true := by decide
  have h2 : fieldMatches "Time" "GremlinFilter" = false := by decide
  have h3 : fieldMatches "GremlinFilter" "GremlinFilter" = true := by decide
  have h0 : (-(2 : Int) ^ 63 ≤ 0 ∧ (0 : Int) < (2 : Int) ^ 63) := by decide
  have hr : (-9223372036854775808 : Int) ≤ T ∧ T < 9223372036854775808 := by
    constructor
    · have := hrange.1
      norm_num at this
      exact this
    · have := hrange.2
      norm_num at this
      exact this
  refine ⟨?_, ?_, ?_, ?_, ?_, ?_, ?_, ?_⟩
  · intro b hb
    simp [SyncRequestMsg.UnmarshalJSON, hb, hT, NewTimeSlice]
  · intro b hb
    simp [SyncRequestMsg.UnmarshalJSON, hb]
  · simp [SyncRequestMsg.UnmarshalJSON, unmarshalRaw, unmarshalRawMembers, h1, h2, h3,
      storeInt64, storeString, hr, hT, NewTimeSlice]
  · simp [SyncRequestMsg.UnmarshalJSON, unmarshalRaw, unmarshalRawMembers, h2, h3, storeString]
  · simp [SyncRequestMsg.UnmarshalJSON, unmarshalRaw, unmarshalRawMembers, h1, h2, h3,
      storeInt64, storeString, h0]
  · simp [UnmarshalMessage, SyncRequestMsg.UnmarshalJSON, unmarshalRaw, unmarshalRawMembers,
      h1, h2, h3, storeInt64, storeString, hr, hT, NewTimeSlice]
  · simp [UnmarshalMessage, SyncRequestMsg.UnmarshalJSON, unmarshalRaw, unmarshalRawMembers,
      h2, h3, storeString]
  · simp [UnmarshalMessage, SyncRequestMsg.UnmarshalJSON, unmarshalRaw, unmarshalRawMembers,
      h1, h2, h3, storeInt64, storeString, h0]

/-- Witness of C11: the payload with `Time` 5 and filter `G.V()` decodes, from
the fresh message, to the time slice `[5, 5]` and that filter. -/
theorem legacy_time_normalized_witness :
    (5 : Int) ≠ 0
    ∧ (-(2 : Int) ^ 63 ≤ 5 ∧ (5 : Int) < (2 : Int) ^ 63)
    ∧ zeroSyncRequestMsg.UnmarshalJSON
          (RawMessage.wellFormed
            (JSON.obj [("Time", JSON.int 5), ("GremlinFilter", JSON.str "G.V()")]))
        = (none, { TimeSlice := some { Start := 5, Last := 5 }, GremlinFilter := "G.V()" }) :=
  ⟨by decide, by decide,
    (legacy_time_normalized rejectAll rejectAll zeroSyncRequestMsg 5 "G.V()" (by decide)
      (by decide)).2.2.1⟩

/-- C12 (counterexample): the message with the time slice `[1, 2]` and the
filter `G.V()`, encoded as the payload of a `SyncRequest` envelope and
decoded with `UnmarshalMessage`, comes back with a nil `TimeSlice`: the
decoded message differs from the original. -/
theorem sync_request_round_trip_loses_time_slice :
    UnmarshalMessage rejectAll rejectAll
        (syncRequestEnvelope
          { TimeSlice := some { Start := 1, Last := 2 }, GremlinFilter := "G.V()" })
      = (SyncRequestMsgType,
          Message.syncRequest { TimeSlice := none, GremlinFilter := "G.V()" }, none)
    ∧ ({ TimeSlice := none, GremlinFilter := "G.V()" } : SyncRequestMsg)
      ≠ { TimeSlice := some { Start := 1, Last := 2 }, GremlinFilter := "G.V()" } :=
  ⟨rfl, by decide⟩

/-- C12 (amended): the round trip holds for a `SyncRequestMsg` with a nil
`TimeSlice` and any `GremlinFilter`: encoding and decoding yields the tag
`SyncRequest`, a nil error and the original message.  For any message the
round trip yields the tag, a nil error and the original `GremlinFilter`, with
a nil `TimeSlice`.  Whatever the payload bytes, the `TimeSlice` the decoder
produces from the fresh message is nil or has equal start and end, so no
encoding carries a slice whose start differs from its end. -/
theorem sync_request_round_trip_nil_time_slice (decodeNode : JSON → Except Error Node)
    (decodeEdge : JSON → Except Error Edge) (F : String) (m : SyncRequestMsg)
    (b : RawMessage) :
    UnmarshalMessage decodeNode decodeEdge
        (syncRequestEnvelope { TimeSlice := none, GremlinFilter := F })
      = (SyncRequestMsgType, Message.syncRequest { TimeSlice := none, GremlinFilter := F }, none)
    ∧ UnmarshalMessage decodeNode decodeEdge (syncRequestEnvelope m)
      = (SyncRequestMsgType,
          Message.syncRequest { TimeSlice := none, GremlinFilter := m.GremlinFilter }, none)
    ∧ ((zeroSyncRequestMsg.UnmarshalJSON b).2.TimeSlice = none
      ∨ ∃ T : Int,
          (zeroSyncRequestMsg.UnmarshalJSON b).2.TimeSlice = some { Start := T, Last := T }) := by
  have h1 : fieldMatches "Time" "TimeSlice" = false := by decide
  have h2 : fieldMatches "GremlinFilter" "TimeSlice" = false := by decide
  have h3 : fieldMatches "Time" "GremlinFilter" = false := by decide
  have h4 : fieldMatches "GremlinFilter" "GremlinFilter" = true := by decide
  have key : ∀ m : SyncRequestMsg, UnmarshalMessage decodeNode decodeEdge (syncRequestEnvelope m)
      = (SyncRequestMsgType,
          Message.syncRequest { TimeSlice := none, GremlinFilter := m.GremlinFilter }, none) := by
    intro m
    simp [UnmarshalMessage, syncRequestEnvelope, marshalSyncRequestMsg,
      SyncRequestMsg.UnmarshalJSON, unmarshalRaw, unmarshalRawMembers, h1, h2, h3, h4,
      storeString]
  refine ⟨key _, key m, ?_⟩
  unfold SyncRequestMsg.UnmarshalJSON
  cases hraw : unmarshalRaw b with
  | error err => left; rfl
  | ok raw =>
    by_cases h0 : raw.Time = 0
    · left
      simp [h0, zeroSyncRequestMsg]
    · right
      exact ⟨raw.Time, by simp [h0, NewTimeSlice]⟩

end SyncRequest


/-! ## Revision chain and cascade delete in the historized store -/

namespace Historized

/-- Successive metadata updates through a client that answers every
conditional update with one matched row add `chainOps` to the recorded
operations and leave the canned result alone. -/
theorem addMetadataAll_ops (g : Graph) (n : Node) (us : List Update)
    (h : g.client.result.matched = 1) :
    (g.addMetadataAll n us).2.client.ops = g.client.ops ++ chainOps n us
    ∧ (g.addMetadataAll n us).2.client.result = g.client.result := by
  induction us generalizing g n with
  | nil => simp [Graph.addMetadataAll, chainOps]
  | cons u rest ih =>
    simp only [Graph.addMetadataAll, Graph.addMetadata, OrientDBBackend.MetadataUpdated,
      fakeOrientDBClient.Search, h, if_true, fakeOrientDBClient.CreateDocument, chainOps]
    have step := ih
      { g with client :=
          { g.client with ops := (g.client.ops ++
              [{ name := "Search",
                 data := OpData.query (archiveQuery "Node" (UnixMillis u.time) n.ID) }]) ++
              [{ name := "CreateDocument",
                 data := OpData.document (nodeDocument
                   { n with Metadata := n.Metadata.set u.key u.value, UpdatedAt := u.time,
                            Revision := n.Revision + 1 }) }] } }
      { n with Metadata := n.Metadata.set u.key u.value, UpdatedAt := u.time,
               Revision := n.Revision + 1 } h
    constructor
    · rw [step.1]
      simp
    · rw [step.2]

/-- A chain of `k` updates adds `2 k` operations. -/
theorem chainOps_length (n : Node) (us : List Update) :
    (chainOps n us).length = 2 * us.length := by
  induction us generalizing n with
  | nil => rfl
  | cons u rest ih =>
    simp only [chainOps, List.length_cons, ih]
    omega

/-- The `i`-th update of a chain (counting from 0) contributes the archive
statement at position `2 i` and the new revision at position `2 i + 1`. -/
theorem chainOps_getElem (n : Node) (us : List Update) (i : Nat) (u : Update)
    (h : us[i]? = some u) :
    (chainOps n us)[2 * i]?
      = some { name := "Search",
               data := OpData.query (archiveQuery "Node" (UnixMillis u.time) n.ID) }
    ∧ (chainOps n us)[2 * i + 1]?
      = some { name := "CreateDocument",
               data := OpData.document
                 { Class := "Node", ID := n.ID, Host := n.Host, Origin := n.Origin,
                   Metadata := (us.take (i + 1)).foldl (fun md v => md.set v.key v.value)
                     n.Metadata,
                   CreatedAt := UnixMillis n.CreatedAt, UpdatedAt := UnixMillis u.time,
                   DeletedAt := n.DeletedAt.map UnixMillis,
                   Revision := n.Revision + ((i : Int) + 1) } } := by
  induction us generalizing n i with
  | nil => simp at h
  | cons u0 rest ih =>
    cases i with
    | zero =>
      simp only [List.getElem?_cons_zero, Option.some.injEq] at h
      subst h
      simp [chainOps, nodeDocument]
    | succ j =>
      simp only [List.getElem?_cons_succ] at h
      have step := ih
        { n with Metadata := n.Metadata.set u0.key u0.value, UpdatedAt := u0.time,
                 Revision := n.Revision + 1 } j h
      have e1 : 2 * (j + 1) = (2 * j) + 1 + 1 := by omega
      have e2 : 2 * (j + 1) + 1 = (2 * j + 1) + 1 + 1 := by omega
      constructor
      · rw [e1]
        simp only [chainOps, List.getElem?_cons_succ]
        exact step.1
      · rw [e2]
        simp only [chainOps, List.getElem?_cons_succ]
        rw [step.2]
        simp only [List.take_succ_cons, List.foldl_cons, Nat.cast_add, Nat.cast_one]
        have e3 : n.Revision + 1 + ((j : Int) + 1) = n.Revision + ((j : Int) + 1 + 1) := by
          omega
        rw [e3]

/-- The edge loop of `delNode` adds one conditional delete per edge, in
order, and leaves the canned result alone. -/
theorem delEdges_ops (g : Graph) (t : Time) (es : List Edge) :
    (Graph.delEdges g t es).client.ops
      = g.client.ops ++ es.map (fun e =>
          { name := "Search", data := OpData.query (deleteQuery "Link" (UnixMillis t) e.ID) })
    ∧ (Graph.delEdges g t es).client.result = g.client.result
    ∧ (Graph.delEdges g t es).service = g.service := by
  induction es generalizing g with
  | nil => simp [Graph.delEdges]
  | cons e rest ih =>
    have step := ih (g.delEdge e t).2
    simp only [Graph.delEdges]
    refine ⟨?_, ?_, ?_⟩
    · rw [step.1]
      simp [Graph.delEdge, OrientDBBackend.EdgeDeleted, fakeOrientDBClient.Search]
    · rw [step.2.1]
      simp [Graph.delEdge, OrientDBBackend.EdgeDeleted, fakeOrientDBClient.Search]
    · rw [step.2.2]
      simp [Graph.delEdge]

/-- C13: a node created through the facade at `t0` and then given the updates
`us` in order makes the store client record, and nothing else:
first one inserted document with `Revision = 1` and
`CreatedAt = UpdatedAt = 1000 * t0`; then for the update number `i + 1`, made
at time `u.time`, at position `2 i + 1` the conditional archive statement
setting `ArchivedAt = 1000 * u.time` on the row with the node's ID that has
`DeletedAt IS NULL AND ArchivedAt IS NULL`, and right after it, at position
`2 i + 2`, one inserted document with `Revision = i + 2`, the unchanged
`CreatedAt = 1000 * t0`, `UpdatedAt = 1000 * u.time`, a null `DeletedAt` and
the metadata after the first `i + 1` updates.  The recorded list has exactly
`1 + 2 k` entries for `k` updates. -/
theorem revision_chain_operations (service : String) (id : Identifier) (m : Metadata)
    (t0 : Time) (host : String) (us : List Update) :
    (localHistory service id m t0 host us).2.client.getOps.length = 1 + 2 * us.length
    ∧ (localHistory service id m t0 host us).2.client.getOps[0]?
      = some { name := "CreateDocument",
               data := OpData.document
                 { Class := "Node", ID := id, Host := host, Origin := service ++ "." ++ host,
                   Metadata := m, CreatedAt := 1000 * t0, UpdatedAt := 1000 * t0,
                   DeletedAt := none, Revision := 1 } }
    ∧ ∀ (i : Nat) (u : Update), us[i]? = some u →
        (localHistory service id m t0 host us).2.client.getOps[2 * i + 1]?
          = some { name := "Search",
                   data := OpData.query
                     ("UPDATE " ++ "Node" ++ " SET ArchivedAt = " ++ toString (1000 * u.time)
                       ++ " WHERE DeletedAt IS NULL AND ArchivedAt IS NULL AND ID = '" ++ id
                       ++ "'") }
        ∧ (localHistory service id m t0 host us).2.client.getOps[2 * i + 2]?
          = some { name := "CreateDocument",
                   data := OpData.document
                     { Class := "Node", ID := id, Host := host,
                       Origin := service ++ "." ++ host,
                       Metadata := (us.take (i + 1)).foldl (fun md v => md.set v.key v.value) m,
                       CreatedAt := 1000 * t0, UpdatedAt := 1000 * u.time,
                       DeletedAt := none, Revision := (i : Int) + 2 } } := by
  have hm : ((newOrientDBGraph service oneRowMatched).AddNode
      ((newOrientDBGraph service oneRowMatched).CreateNode id m t0 host)).2.client.result.matched
      = 1 := rfl
  have hops := (addMetadataAll_ops _
    ((newOrientDBGraph service oneRowMatched).CreateNode id m t0 host) us hm).1
  have hrun : (localHistory service id m t0 host us).2.client.getOps
      = { name := "CreateDocument",
          data := OpData.document (nodeDocument
            ((newOrientDBGraph service oneRowMatched).CreateNode id m t0 host)) }
        :: chainOps ((newOrientDBGraph service oneRowMatched).CreateNode id m t0 host) us := by
    simp only [localHistory, fakeOrientDBClient.getOps]
    rw [hops]
    rfl
  rw [hrun]
  refine ⟨?_, ?_, ?_⟩
  · simp only [List.length_cons, chainOps_length]
    omega
  · simp only [List.getElem?_cons_zero]
    rfl
  · intro i u h
    have step := chainOps_getElem
      ((newOrientDBGraph service oneRowMatched).CreateNode id m t0 host) us i u h
    have e1 : 2 * i + 2 = (2 * i + 1) + 1 := by omega
    constructor
    · simp only [List.getElem?_cons_succ]
      rw [step.1]
      rfl
    · rw [e1]
      simp only [List.getElem?_cons_succ]
      rw [step.2]
      have e2 : (1 : Int) + ((i : Int) + 1) = (i : Int) + 2 := by omega
      simp only [Graph.CreateNode, UnixMillis, Option.map_none', e2, newOrientDBGraph]

/-- Witness of C13 on the updates of `TestLocalHistory`: the second update
(MTU 1520 at 3 s) is archived at 3000 and inserted as revision 3. -/
theorem revision_chain_operations_witness :
    ([{ key := "MTU", value := JSON.int 1510, time := Unix 2 },
      { key := "MTU", value := JSON.int 1520, time := Unix 3 }] : List Update)[1]?
      = some { key := "MTU", value := JSON.int 1520, time := Unix 3 }
    ∧ (localHistory "svc" "aaa" [("MTU", JSON.int 1500)] (Unix 1) "host1"
        [{ key := "MTU", value := JSON.int 1510, time := Unix 2 },
         { key := "MTU", value := JSON.int 1520, time := Unix 3 }]).2.client.getOps[2 * 1 + 2]?
      = some { name := "CreateDocument",
               data := OpData.document
                 { Class := "Node", ID := "aaa", Host := "host1", Origin := "svc" ++ "." ++ "host1",
                   Metadata := [("MTU", JSON.int 1520)],
                   CreatedAt := 1000, UpdatedAt := 3000, DeletedAt := none, Revision := 3 } } :=
  ⟨rfl,
    ((revision_chain_operations "svc" "aaa" [("MTU", JSON.int 1500)] (Unix 1) "host1"
      [{ key := "MTU", value := JSON.int 1510, time := Unix 2 },
       { key := "MTU", value := JSON.int 1520, time := Unix 3 }]).2.2 1
      { key := "MTU", value := JSON.int 1520, time := Unix 3 } rfl).2⟩

/-- C14: deleting a node through the facade at time `T` makes the store client
record, in this order and nothing else: the query selecting the non-archived
edges whose `Parent` or `Child` is the node's ID; for every edge of the
response, in order, one conditional update stamping
`DeletedAt = ArchivedAt = 1000 * T` on the live row with that edge's ID; and
last the conditional update stamping `DeletedAt = ArchivedAt = 1000 * T` on
the node's live row.  No `CreateDocument` is among them. -/
theorem cascade_delete_operations (g : Graph) (n : Node) (T : Time) :
    (g.delNode n T).2.client.getOps
      = g.client.getOps
        ++ ({ name := "Search",
              data := OpData.query
                ("SELECT FROM Link WHERE ArchivedAt is NULL AND (Parent = '" ++ n.ID
                  ++ "' OR Child = '" ++ n.ID ++ "')") }
          :: (g.client.result.edges.map (fun e =>
                ({ name := "Search",
                   data := OpData.query
                     ("UPDATE " ++ "Link" ++ " SET DeletedAt = " ++ toString (1000 * T)
                       ++ ", ArchivedAt = " ++ toString (1000 * T)
                       ++ " WHERE DeletedAt IS NULL AND ArchivedAt IS NULL AND ID = '" ++ e.ID
                       ++ "'") } : op))
              ++ [{ name := "Search",
                    data := OpData.query
                      ("UPDATE " ++ "Node" ++ " SET DeletedAt = " ++ toString (1000 * T)
                        ++ ", ArchivedAt = " ++ toString (1000 * T)
                        ++ " WHERE DeletedAt IS NULL AND ArchivedAt IS NULL AND ID = '" ++ n.ID
                        ++ "'") }]))
    ∧ (((g.delNode n T).2.client.getOps.drop g.client.getOps.length).filter
        (fun o => o.name = "CreateDocument")) = []
    ∧ g.client.result.edges.map (fun e => e.ID)
      = g.client.result.Body.map (fun record => stringMember "ID" record) := by
  have hloop := delEdges_ops
    { g with client := (OrientDBBackend.GetNodeEdges g.client n).2 } T
    (OrientDBBackend.GetNodeEdges g.client n).1
  have hops : (g.delNode n T).2.client.getOps
      = g.client.getOps
        ++ ({ name := "Search", data := OpData.query (nodeEdgesQuery n.ID) }
          :: (g.client.result.edges.map (fun e =>
                ({ name := "Search",
                   data := OpData.query (deleteQuery "Link" (UnixMillis T) e.ID) } : op))
              ++ [{ name := "Search",
                    data := OpData.query (deleteQuery "Node" (UnixMillis T) n.ID) }])) := by
    simp only [Graph.delNode, OrientDBBackend.NodeDeleted, fakeOrientDBClient.Search,
      fakeOrientDBClient.getOps]
    rw [hloop.1]
    simp [OrientDBBackend.GetNodeEdges, fakeOrientDBClient.Search]
  refine ⟨hops, ?_, ?_⟩
  · rw [hops, List.drop_left]
    simp [List.filter_eq_nil_iff]
  · simp [Result.edges]

/-- The model run on the calls of `TestLocalHistory` records exactly the
operation list the test expects at its end. -/
theorem test_local_history_expected (service : String) :
    testLocalHistory service
      = [{ name := "CreateDocument",
           data := OpData.document
             { Class := "Node", ID := "aaa", Host := "host1", Origin := service ++ "." ++ "host1",
               Metadata := [("MTU", JSON.int 1500)], CreatedAt := 1000, UpdatedAt := 1000,
               DeletedAt := none, Revision := 1 } },
         { name := "Search",
           data := OpData.query
             "UPDATE Node SET ArchivedAt = 2000 WHERE DeletedAt IS NULL AND ArchivedAt IS NULL AND ID = 'aaa'" },
         { name := "CreateDocument",
           data := OpData.document
             { Class := "Node", ID := "aaa", Host := "host1", Origin := service ++ "." ++ "host1",
               Metadata := [("MTU", JSON.int 1510)], CreatedAt := 1000, UpdatedAt := 2000,
               DeletedAt := none, Revision := 2 } },
         { name := "Search",
           data := OpData.query
             "UPDATE Node SET ArchivedAt = 3000 WHERE DeletedAt IS NULL AND ArchivedAt IS NULL AND ID = 'aaa'" },
         { name := "CreateDocument",
           data := OpData.document
             { Class := "Node", ID := "aaa", Host := "host1", Origin := service ++ "." ++ "host1",
               Metadata := [("MTU", JSON.int 1520)], CreatedAt := 1000, UpdatedAt := 3000,
               DeletedAt := none, Revision := 3 } },
         { name := "Search",
           data := OpData.query
             "SELECT FROM Link WHERE ArchivedAt is NULL AND (Parent = 'aaa' OR Child = 'aaa')" },
         { name := "Search",
           data := OpData.query
             "UPDATE Link SET DeletedAt = 4000, ArchivedAt = 4000 WHERE DeletedAt IS NULL AND ArchivedAt IS NULL AND ID = 'bbb'" },
         { name := "Search",
           data := OpData.query
             "UPDATE Node SET DeletedAt = 4000, ArchivedAt = 4000 WHERE DeletedAt IS NULL AND ArchivedAt IS NULL AND ID = 'aaa'" }] := by
  have q1 : archiveQuery "Node" 2000 "aaa"
      = "UPDATE Node SET ArchivedAt = 2000 WHERE DeletedAt IS NULL AND ArchivedAt IS NULL AND ID = 'aaa'" := by
    decide
  have q2 : archiveQuery "Node" 3000 "aaa"
      = "UPDATE Node SET ArchivedAt = 3000 WHERE DeletedAt IS NULL AND ArchivedAt IS NULL AND ID = 'aaa'" := by
    decide
  have q3 : nodeEdgesQuery "aaa"
      = "SELECT FROM Link WHERE ArchivedAt is NULL AND (Parent = 'aaa' OR Child = 'aaa')" := by
    decide
  have q4 : deleteQuery "Link" 4000 "bbb"
      = "UPDATE Link SET DeletedAt = 4000, ArchivedAt = 4000 WHERE DeletedAt IS NULL AND ArchivedAt IS NULL AND ID = 'bbb'" := by
    decide
  have q5 : deleteQuery "Node" 4000 "aaa"
      = "UPDATE Node SET DeletedAt = 4000, ArchivedAt = 4000 WHERE DeletedAt IS NULL AND ArchivedAt IS NULL AND ID = 'aaa'" := by
    decide
  rw [← q1, ← q2, ← q3, ← q4, ← q5]
  rfl

end Historized

/-! ## Unset and unknown modes of `CachedBackend` -/

section UnsetMode

variable {T : Types} {M P : Type}

open CachedBackend

/-- C15: a `CachedBackend` whose mode was never set (as `NewCachedBackend`
returns it) or was set to an integer other than `CACHE_ONLY_MODE` and
`PERSISTENT_ONLY_MODE` behaves on every operation as the same backend put in
`DEFAULT_MODE`: same result, same invocations, same backend states.  Spelled
out: every mutating call invokes both backends, every read without a time
slice is answered by the memory backend alone, and every read with a time
slice by the persistent backend alone. -/
theorem unset_mode_routes_as_default (c : CachedBackend T M P) (t : Option TimeSlice)
    (ts : TimeSlice) (i : Identifier) (m pm cm : T.Metadata) (n : T.Node) (e : T.Edge)
    (a : T.Any) (g : T.Graph) (ctx : T.GraphContext)
    (h : c.cacheMode = none
      ∨ ∃ k : Int, c.cacheMode = some k ∧ k ≠ CACHE_ONLY_MODE ∧ k ≠ PERSISTENT_ONLY_MODE) :
    (NewCachedBackend (Except.ok c.memory) c.persistent
        = Except.ok { memory := c.memory, persistent := c.persistent, cacheMode := none,
                      calls := [] })
    ∧ (((c.NodeAdded n).1 = ((c.SetMode DEFAULT_MODE).NodeAdded n).1
      ∧ (c.NodeAdded n).2.calls = ((c.SetMode DEFAULT_MODE).NodeAdded n).2.calls
      ∧ (c.NodeAdded n).2.memory = ((c.SetMode DEFAULT_MODE).NodeAdded n).2.memory
      ∧ (c.NodeAdded n).2.persistent = ((c.SetMode DEFAULT_MODE).NodeAdded n).2.persistent)
    ∧ ((c.NodeDeleted n).1 = ((c.SetMode DEFAULT_MODE).NodeDeleted n).1
      ∧ (c.NodeDeleted n).2.calls = ((c.SetMode DEFAULT_MODE).NodeDeleted n).2.calls
      ∧ (c.NodeDeleted n).2.memory = ((c.SetMode DEFAULT_MODE).NodeDeleted n).2.memory
      ∧ (c.NodeDeleted n).2.persistent = ((c.SetMode DEFAULT_MODE).NodeDeleted n).2.persistent)
    ∧ ((c.EdgeAdded e).1 = ((c.SetMode DEFAULT_MODE).EdgeAdded e).1
      ∧ (c.EdgeAdded e).2.calls = ((c.SetMode DEFAULT_MODE).EdgeAdded e).2.calls
      ∧ (c.EdgeAdded e).2.memory = ((c.SetMode DEFAULT_MODE).EdgeAdded e).2.memory
      ∧ (c.EdgeAdded e).2.persistent = ((c.SetMode DEFAULT_MODE).EdgeAdded e).2.persistent)
    ∧ ((c.EdgeDeleted e).1 = ((c.SetMode DEFAULT_MODE).EdgeDeleted e).1
      ∧ (c.EdgeDeleted e).2.calls = ((c.SetMode DEFAULT_MODE).EdgeDeleted e).2.calls
      ∧ (c.EdgeDeleted e).2.memory = ((c.SetMode DEFAULT_MODE).EdgeDeleted e).2.memory
      ∧ (c.EdgeDeleted e).2.persistent = ((c.SetMode DEFAULT_MODE).EdgeDeleted e).2.persistent)
    ∧ ((c.MetadataUpdated a).1 = ((c.SetMode DEFAULT_MODE).MetadataUpdated a).1
      ∧ (c.MetadataUpdated a).2.calls = ((c.SetMode DEFAULT_MODE).MetadataUpdated a).2.calls
      ∧ (c.MetadataUpdated a).2.memory = ((c.SetMode DEFAULT_MODE).MetadataUpdated a).2.memory
      ∧ (c.MetadataUpdated a).2.persistent = ((c.SetMode DEFAULT_MODE).MetadataUpdated a).2.persistent)
    ∧ ((c.GetNode i t).1 = ((c.SetMode DEFAULT_MODE).GetNode i t).1
      ∧ (c.GetNode i t).2.calls = ((c.SetMode DEFAULT_MODE).GetNode i t).2.calls
      ∧ (c.GetNode i t).2.memory = ((c.SetMode DEFAULT_MODE).GetNode i t).2.memory
      ∧ (c.GetNode i t).2.persistent = ((c.SetMode DEFAULT_MODE).GetNode i t).2.persistent)
    ∧ ((c.GetEdge i t).1 = ((c.SetMode DEFAULT_MODE).GetEdge i t).1
      ∧ (c.GetEdge i t).2.calls = ((c.SetMode DEFAULT_MODE).GetEdge i t).2.calls
      ∧ (c.GetEdge i t).2.memory = ((c.SetMode DEFAULT_MODE).GetEdge i t).2.memory
      ∧ (c.GetEdge i t).2.persistent = ((c.SetMode DEFAULT_MODE).GetEdge i t).2.persistent)
    ∧ ((c.GetNodes t m).1 = ((c.SetMode DEFAULT_MODE).GetNodes t m).1
      ∧ (c.GetNodes t m).2.calls = ((c.SetMode DEFAULT_MODE).GetNodes t m).2.calls
      ∧ (c.GetNodes t m).2.memory = ((c.SetMode DEFAULT_MODE).GetNodes t m).2.memory
      ∧ (c.GetNodes t m).2.persistent = ((c.SetMode DEFAULT_MODE).GetNodes t m).2.persistent)
    ∧ ((c.GetEdges t m).1 = ((c.SetMode DEFAULT_MODE).GetEdges t m).1
      ∧ (c.GetEdges t m).2.calls = ((c.SetMode DEFAULT_MODE).GetEdges t m).2.calls
      ∧ (c.GetEdges t m).2.memory = ((c.SetMode DEFAULT_MODE).GetEdges t m).2.memory
      ∧ (c.GetEdges t m).2.persistent = ((c.SetMode DEFAULT_MODE).GetEdges t m).2.persistent)
    ∧ ((c.GetNodeEdges n t m).1 = ((c.SetMode DEFAULT_MODE).GetNodeEdges n t m).1
      ∧ (c.GetNodeEdges n t m).2.calls = ((c.SetMode DEFAULT_MODE).GetNodeEdges n t m).2.calls
      ∧ (c.GetNodeEdges n t m).2.memory = ((c.SetMode DEFAULT_MODE).GetNodeEdges n t m).2.memory
      ∧ (c.GetNodeEdges n t m).2.persistent = ((c.SetMode DEFAULT_MODE).GetNodeEdges n t m).2.persistent)
    ∧ ((c.GetEdgeNodes e t pm cm).1 = ((c.SetMode DEFAULT_MODE).GetEdgeNodes e t pm cm).1
      ∧ (c.GetEdgeNodes e t pm cm).2.calls = ((c.SetMode DEFAULT_MODE).GetEdgeNodes e t pm cm).2.calls
      ∧ (c.GetEdgeNodes e t pm cm).2.memory = ((c.SetMode DEFAULT_MODE).GetEdgeNodes e t pm cm).2.memory
      ∧ (c.GetEdgeNodes e t pm cm).2.persistent = ((c.SetMode DEFAULT_MODE).GetEdgeNodes e t pm cm).2.persistent)
    ∧ ((c.WithContext g ctx).1 = ((c.SetMode DEFAULT_MODE).WithContext g ctx).1
      ∧ (c.WithContext g ctx).2.calls = ((c.SetMode DEFAULT_MODE).WithContext g ctx).2.calls
      ∧ (c.WithContext g ctx).2.memory = ((c.SetMode DEFAULT_MODE).WithContext g ctx).2.memory
      ∧ (c.WithContext g ctx).2.persistent = ((c.SetMode DEFAULT_MODE).WithContext g ctx).2.persistent))
    ∧ ((c.NodeAdded n).2.calls
        = c.calls ++ [(Target.memory, Call.NodeAdded n), (Target.persistent, Call.NodeAdded n)]
      ∧ (c.NodeDeleted n).2.calls
        = c.calls ++ [(Target.memory, Call.NodeDeleted n), (Target.persistent, Call.NodeDeleted n)]
      ∧ (c.EdgeAdded e).2.calls
        = c.calls ++ [(Target.memory, Call.EdgeAdded e), (Target.persistent, Call.EdgeAdded e)]
      ∧ (c.EdgeDeleted e).2.calls
        = c.calls ++ [(Target.memory, Call.EdgeDeleted e), (Target.persistent, Call.EdgeDeleted e)]
      ∧ (c.MetadataUpdated a).2.calls
        = c.calls ++ [(Target.persistent, Call.MetadataUpdated a), (Target.memory, Call.MetadataUpdated a)])
    ∧ (((c.GetNode i none).1 = (c.memory.impl.GetNode i none c.memory.state).1
        ∧ (c.GetNode i none).2.calls = c.calls ++ [(Target.memory, Call.GetNode i none)])
      ∧ ((c.GetEdge i none).1 = (c.memory.impl.GetEdge i none c.memory.state).1
        ∧ (c.GetEdge i none).2.calls = c.calls ++ [(Target.memory, Call.GetEdge i none)])
      ∧ ((c.GetNodes none m).1 = (c.memory.impl.GetNodes none m c.memory.state).1
        ∧ (c.GetNodes none m).2.calls = c.calls ++ [(Target.memory, Call.GetNodes none m)])
      ∧ ((c.GetEdges none m).1 = (c.memory.impl.GetEdges none m c.memory.state).1
        ∧ (c.GetEdges none m).2.calls = c.calls ++ [(Target.memory, Call.GetEdges none m)])
      ∧ ((c.GetNodeEdges n none m).1 = (c.memory.impl.GetNodeEdges n none m c.memory.state).1
        ∧ (c.GetNodeEdges n none m).2.calls = c.calls ++ [(Target.memory, Call.GetNodeEdges n none m)])
      ∧ ((c.GetEdgeNodes e none pm cm).1 = (c.memory.impl.GetEdgeNodes e none pm cm c.memory.state).1
        ∧ (c.GetEdgeNodes e none pm cm).2.calls = c.calls ++ [(Target.memory, Call.GetEdgeNodes e none pm cm)]))
    ∧ (((c.GetNode i (some ts)).1 = (c.persistent.impl.GetNode i (some ts) c.persistent.state).1
        ∧ (c.GetNode i (some ts)).2.calls = c.calls ++ [(Target.persistent, Call.GetNode i (some ts))])
      ∧ ((c.GetEdge i (some ts)).1 = (c.persistent.impl.GetEdge i (some ts) c.persistent.state).1
        ∧ (c.GetEdge i (some ts)).2.calls = c.calls ++ [(Target.persistent, Call.GetEdge i (some ts))])
      ∧ ((c.GetNodes (some ts) m).1 = (c.persistent.impl.GetNodes (some ts) m c.persistent.state).1
        ∧ (c.GetNodes (some ts) m).2.calls = c.calls ++ [(Target.persistent, Call.GetNodes (some ts) m)])
      ∧ ((c.GetEdges (some ts) m).1 = (c.persistent.impl.GetEdges (some ts) m c.persistent.state).1
        ∧ (c.GetEdges (some ts) m).2.calls = c.calls ++ [(Target.persistent, Call.GetEdges (some ts) m)])
      ∧ ((c.GetNodeEdges n (some ts) m).1 = (c.persistent.impl.GetNodeEdges n (some ts) m c.persistent.state).1
        ∧ (c.GetNodeEdges n (some ts) m).2.calls = c.calls ++ [(Target.persistent, Call.GetNodeEdges n (some ts) m)])
      ∧ ((c.GetEdgeNodes e (some ts) pm cm).1 = (c.persistent.impl.GetEdgeNodes e (some ts) pm cm c.persistent.state).1
        ∧ (c.GetEdgeNodes e (some ts) pm cm).2.calls = c.calls ++ [(Target.persistent, Call.GetEdgeNodes e (some ts) pm cm)])) := by
  have h0 : c.cacheMode ≠ some CACHE_ONLY_MODE := by
    rcases h with h | ⟨k, hk, hk0, _⟩
    · simp [h]
    · simp [hk, hk0]
  have h1 : c.cacheMode ≠ some PERSISTENT_ONLY_MODE := by
    rcases h with h | ⟨k, hk, _, hk1⟩
    · simp [h]
    · simp [hk, hk1]
  have d0 : DEFAULT_MODE ≠ CACHE_ONLY_MODE := by decide
  have d1 : DEFAULT_MODE ≠ PERSISTENT_ONLY_MODE := by decide
  refine ⟨rfl, ?_, ?_, ?_, ?_⟩
  · cases t <;>
    simp [NodeAdded, NodeDeleted, EdgeAdded, EdgeDeleted, MetadataUpdated, WithContext,
      GetNode, GetEdge, GetNodes, GetEdges, GetNodeEdges, GetEdgeNodes, SetMode, onMemory,
      onPersistent, h0, h1, d0, d1]
  · simp [NodeAdded, NodeDeleted, EdgeAdded, EdgeDeleted, MetadataUpdated, onMemory,
      onPersistent, h0, h1]
  · simp [GetNode, GetEdge, GetNodes, GetEdges, GetNodeEdges, GetEdgeNodes, onMemory, h1]
  · simp [GetNode, GetEdge, GetNodes, GetEdges, GetNodeEdges, GetEdgeNodes, onPersistent, h0]

/-- Witness of C15 on a backend whose mode was never set: `NodeAdded` invokes
the memory backend and then the persistent backend. -/
theorem unset_mode_routes_as_default_witness :
    ((exBackend none).cacheMode = none
      ∨ ∃ k : Int, (exBackend none).cacheMode = some k ∧ k ≠ CACHE_ONLY_MODE
          ∧ k ≠ PERSISTENT_ONLY_MODE)
    ∧ ((exBackend none).NodeAdded 5).2.calls
        = (exBackend none).calls
          ++ [(Target.memory, Call.NodeAdded 5), (Target.persistent, Call.NodeAdded 5)] :=
  ⟨Or.inl rfl,
    (unset_mode_routes_as_default (exBackend none) none (NewTimeSlice 1 1) "aaa" () () () 5 6 7
      8 () (Or.inl rfl)).2.2.1.1⟩

end UnsetMode


end Skydive
